import Mathlib

/-!
Verification development for the Tanabbah fraud-message risk-scoring engine
(repository `absher`, file `src/script.js`).

The engine is shallowly embedded: JavaScript strings become `String`,
JS numbers become `Int` (all score arithmetic is integral) or `Rat`
(ML confidence values and the mixed-script ratios), and the two regular
expressions in `extractURLs` are modelled by explicit scanners that follow
the semantics of the concrete patterns (`/https?:\/\/[^\s]+/gi` and
`/(?:^|\s)([a-zA-Z0-9-]+\.[a-zA-Z]{2,}(?:\/[^\s]*)?)/g`, including the
`lastIndex` progression of `exec` and greedy repetition).

Note on text: the repository file is stored with a cp1252 mojibake of its
original Arabic/emoji literals (the file's actual codepoints are e.g.
`Ø£...`).  The embedding reproduces the file's codepoints exactly,
written with `\uXXXX` escapes.  `String.toLowerCase` of JavaScript is
modelled by `jsLower`, covering ASCII and the Latin-1/cp1252 uppercase
letters that actually occur in the tables (`Ø`, `Ù`, `Š`, ...);
this matters because e.g. `'Ø'.toLowerCase() = 'ø'` in JS.
-/

set_option maxRecDepth 4000

/-- UI language, modelling the global `currentLanguage` of `src/script.js`. -/
inductive Lang where
  | ar
  | en
deriving DecidableEq

/-- JavaScript `toLowerCase`, restricted to the codepoints occurring in the
source tables: ASCII `A`-`Z`, Latin-1 `À`-`Þ` (except `×`),
and the cp1252 letters `Œ`, `Š`, `Ž`, `Ÿ`. -/
def jsLower (c : Char) : Char :=
  if 'A' ≤ c && c ≤ 'Z' then Char.ofNat (c.toNat + 32)
  else if (0xC0 ≤ c.toNat && c.toNat ≤ 0xD6) || (0xD8 ≤ c.toNat && c.toNat ≤ 0xDE) then
    Char.ofNat (c.toNat + 32)
  else if c.toNat == 0x152 || c.toNat == 0x160 || c.toNat == 0x17D then Char.ofNat (c.toNat + 1)
  else if c.toNat == 0x178 then Char.ofNat 0xFF
  else c

/-- `s.toLowerCase()` on whole strings. -/
def lowerStr (s : String) : String := ⟨s.data.map jsLower⟩

/-- `startsL pat l`: `l` starts with `pat` (character-exact). -/
def startsL : List Char → List Char → Bool
  | [], _ => true
  | _ :: _, [] => false
  | p :: ps, c :: cs => p == c && startsL ps cs

/-- `subL pat l`: `pat` occurs as a contiguous run inside `l` (JS `includes`). -/
def subL (pat : List Char) : List Char → Bool
  | [] => pat.isEmpty
  | c :: cs => startsL pat (c :: cs) || subL pat cs

/-- `endsL pat l`: `l` ends with `pat` (JS `endsWith`). -/
def endsL (pat l : List Char) : Bool := startsL pat.reverse l.reverse

/-- JS `hay.includes(pat)`. -/
def containsStr (hay pat : String) : Bool := subL pat.data hay.data

/-- JS `hay.startsWith(pat)`. -/
def startsStr (hay pat : String) : Bool := startsL pat.data hay.data

/-- JS `hay.endsWith(pat)`. -/
def endsStr (hay pat : String) : Bool := endsL pat.data hay.data

/-- JS regex `\s` (whitespace class, Unicode set used by ECMAScript). -/
def isWS (c : Char) : Bool :=
  c.toNat == 0x20 || (0x9 ≤ c.toNat && c.toNat ≤ 0xd) || c.toNat == 0xa0 ||
  c.toNat == 0x1680 || (0x2000 ≤ c.toNat && c.toNat ≤ 0x200a) || c.toNat == 0x2028 ||
  c.toNat == 0x2029 || c.toNat == 0x202f || c.toNat == 0x205f || c.toNat == 0x3000 ||
  c.toNat == 0xfeff

/-- JS regex `\d` on ASCII digits. -/
def isDigitC (c : Char) : Bool := '0' ≤ c && c ≤ '9'

/-- Regex class `[a-zA-Z]`. -/
def isAsciiLetter (c : Char) : Bool := ('a' ≤ c && c ≤ 'z') || ('A' ≤ c && c ≤ 'Z')

/-- Regex class `[a-zA-Z0-9-]`. -/
def isAlnumDash (c : Char) : Bool := isAsciiLetter c || isDigitC c || c == '-'

/-- Regex class `[؀-ۿ]` (Arabic block). -/
def isArabicChar (c : Char) : Bool := 0x600 ≤ c.toNat && c.toNat ≤ 0x6FF

/-- JS `String.length` (UTF-16 code units). -/
def utf16Len (s : String) : Nat :=
  s.data.foldl (fun a c => a + (if 0x10000 ≤ c.toNat then 2 else 1)) 0

/-- JS `s.split(sep)` for a one-character separator (empty pieces kept). -/
def splitOnC (sep : Char) : List Char → List (List Char)
  | [] => [[]]
  | c :: cs =>
    let r := splitOnC sep cs
    if c == sep then [] :: r
    else
      match r with
      | [] => [[c]]
      | h :: t => (c :: h) :: t

/-- `Math.max(0, Math.min(100, x))`, the score clamp of the engine. -/
def clamp (x : Int) : Int := max 0 (min 100 x)

/-- JS `Math.round` on an exact rational. -/
def jsRound (q : ℚ) : Int := ⌊q + 1/2⌋

/-- Strip `pat` from the front of `l`, comparing case-insensitively
(regex `i` flag), returning the remainder. -/
def stripCIL : List Char → List Char → Option (List Char)
  | [], l => some l
  | _ :: _, [] => none
  | p :: ps, c :: cs => if jsLower c == jsLower p then stripCIL ps cs else none

/-- Strip `pat` from the front of `l`, comparing exactly. -/
def stripL : List Char → List Char → Option (List Char)
  | [], l => some l
  | _ :: _, [] => none
  | p :: ps, c :: cs => if c == p then stripL ps cs else none

/-- One attempt of `/https?:\/\/[^\s]+/i` anchored at the head of `l`:
returns the matched text and the remainder after the match. -/
def matchFullAt (l : List Char) : Option (List Char × List Char) :=
  match stripCIL ['h', 't', 't', 'p'] l with
  | none => none
  | some r1 =>
    let finish : List Char → Option (List Char × List Char) := fun r2 =>
      let run := r2.takeWhile (fun c => !isWS c)
      let rest := r2.dropWhile (fun c => !isWS c)
      if run.isEmpty then none
      else some (l.take (l.length - rest.length), rest)
    match stripCIL ['s', ':', '/', '/'] r1 with
    | some r2 => finish r2
    | none =>
      match stripCIL [':', '/', '/'] r1 with
      | some r2 => finish r2
      | none => none

/-- All matches of `/https?:\/\/[^\s]+/gi` (leftmost, non-overlapping);
the fuel argument is instantiated with the text length. -/
def scanFull : Nat → List Char → List (List Char)
  | 0, _ => []
  | _ + 1, [] => []
  | n + 1, c :: cs =>
    match matchFullAt (c :: cs) with
    | some (m, rest) => m :: scanFull n rest
    | none => scanFull n cs

/-- One attempt of the group `[a-zA-Z0-9-]+\.[a-zA-Z]{2,}(?:\/[^\s]*)?`
anchored at the head of `l`: the greedy run of `[a-zA-Z0-9-]` must be
followed by a dot, then at least two letters, then an optional `/path`.
Returns the captured group and the remainder. -/
def tryDomainAt (l : List Char) : Option (List Char × List Char) :=
  let r1 := l.takeWhile isAlnumDash
  let t1 := l.dropWhile isAlnumDash
  if r1.isEmpty then none
  else
    match t1 with
    | '.' :: t2 =>
      let r2 := t2.takeWhile isAsciiLetter
      let t3 := t2.dropWhile isAsciiLetter
      if r2.length < 2 then none
      else
        match t3 with
        | '/' :: t4 =>
          let p := t4.takeWhile (fun c => !isWS c)
          let t5 := t4.dropWhile (fun c => !isWS c)
          some (r1 ++ '.' :: r2 ++ '/' :: p, t5)
        | _ => some (r1 ++ '.' :: r2, t3)
    | _ => none

/-- The `exec` loop over `/(?:^|\s)([a-zA-Z0-9-]+\.[a-zA-Z]{2,}(?:\/[^\s]*)?)/g`:
the captured group must start at the string start (`atStart`) or be preceded
by one whitespace character consumed by the match. -/
def scanBare : Nat → Bool → List Char → List (List Char)
  | 0, _, _ => []
  | _ + 1, _, [] => []
  | n + 1, atStart, c :: cs =>
    let attempt :=
      if atStart then
        match tryDomainAt (c :: cs) with
        | some r => some r
        | none => if isWS c then tryDomainAt cs else none
      else if isWS c then tryDomainAt cs else none
    match attempt with
    | some (g, rest) => g :: scanBare n false rest
    | none => scanBare n false cs

/-- `text.match(fullUrlPattern) || []` of `extractURLs` (src/script.js:749-751). -/
def fullURLsOf (text : String) : List String :=
  (scanFull text.data.length text.data).map (fun l => (⟨l⟩ : String))

/-- The successive group-1 captures of `bareUrlPattern.exec` (src/script.js:753-755). -/
def bareURLsOf (text : String) : List String :=
  (scanBare text.data.length true text.data).map (fun l => (⟨l⟩ : String))

/-- `extractURLs` of src/script.js:746-763: all protocol-prefixed matches, then
each bare candidate appended if not already present, not ending in a dot, and
containing a dot. -/
def extractURLs (text : String) : List String :=
  (bareURLsOf text).foldl
    (fun urls u =>
      if !urls.contains u && !endsStr u "." && containsStr u "." then urls ++ [u] else urls)
    (fullURLsOf text)

/-- `[...new Set(urls)]`: first-occurrence deduplication. -/
def removeDupKeepFirst (l : List String) : List String :=
  l.foldl (fun acc u => if acc.contains u then acc else acc ++ [u]) []

/-- `extractURLs` of src/js/utils.js:56-75: same collection as src/script.js,
followed by `[...new Set(urls)]`. -/
def extractURLsUtils (text : String) : List String :=
  removeDupKeepFirst (extractURLs text)

/-- `ANALYSIS_CONFIG.SAFE_THRESHOLD`. -/
def SAFE_THRESHOLD : Int := 25

/-- `ANALYSIS_CONFIG.SUSPICIOUS_THRESHOLD`. -/
def SUSPICIOUS_THRESHOLD : Int := 65

/-- `ANALYSIS_CONFIG.ML_HIGH_CONFIDENCE` (0.75). -/
def ML_HIGH_CONFIDENCE : ℚ := mkRat 3 4

/-- `ANALYSIS_CONFIG.ML_MEDIUM_CONFIDENCE` (0.50). -/
def ML_MEDIUM_CONFIDENCE : ℚ := mkRat 1 2

/-- `ANALYSIS_CONFIG.ML_LOW_CONFIDENCE` (0.30). -/
def ML_LOW_CONFIDENCE : ℚ := mkRat 3 10

namespace WEIGHTS

/-- `ANALYSIS_CONFIG.WEIGHTS`. -/
def URL_SHORTENER : Int := 30

def FAKE_GOVERNMENT : Int := 45

def INSECURE_PROTOCOL : Int := 25

def URGENCY_TACTICS : Int := 22

def SUSPICIOUS_DOMAIN : Int := 35

def PHISHING_KEYWORDS : Int := 20

def MULTIPLE_REDIRECTS : Int := 28

def UNOFFICIAL_SOURCE : Int := 15

def SUSPICIOUS_TLD : Int := 30

def IP_ADDRESS_URL : Int := 40

def EXCESSIVE_SUBDOMAIN : Int := 25

def UNICODE_HOMOGRAPH : Int := 45

def DATA_HARVESTING : Int := 35

end WEIGHTS

def PHISHING_arabic_urgency : List String :=
  ["\u00d8\u00aa\u00d9\u2026 \u00d8\u00aa\u00d8\u00b9\u00d9\u201e\u00d9\u0160\u00d9\u201a",
   "\u00d8\u00aa\u00d9\u2026 \u00d8\u00a5\u00d9\u0160\u00d9\u201a\u00d8\u00a7\u00d9",
   "\u00d8\u00aa\u00d9\u2026 \u00d8\u00ad\u00d8\u00b8\u00d8\u00b1",
   "\u00d8\u00b3\u00d9\u0160\u00d8\u00aa\u00d9\u2026 \u00d8\u00a5\u00d8\u00ba\u00d9\u201e\u00d8\u00a7\u00d9\u201a",
   "\u00d8\u00ae\u00d9\u201e\u00d8\u00a7\u00d9\u201e 24 \u00d8\u00b3\u00d8\u00a7\u00d8\u00b9\u00d8\u00a9",
   "\u00d8\u00ae\u00d9\u201e\u00d8\u00a7\u00d9\u201e \u00d8\u00b3\u00d8\u00a7\u00d8\u00b9\u00d8\u00a9",
   "\u00d9\u00d9\u02c6\u00d8\u00b1\u00d8\u00a7\u00d9\u2039",
   "\u00d8\u00ad\u00d8\u00a7\u00d9\u201e\u00d8\u00a7\u00d9\u2039",
   "\u00d8\u00b9\u00d8\u00a7\u00d8\u00ac\u00d9\u201e",
   "\u00d8\u00a7\u00d9\u201e\u00d8\u00a2\u00d9\u2020",
   "\u00d9\u201a\u00d8\u00a8\u00d9\u201e \u00d9\u00d9\u02c6\u00d8\u00a7\u00d8\u00aa \u00d8\u00a7\u00d9\u201e\u00d8\u00a3\u00d9\u02c6\u00d8\u00a7\u00d9\u2020",
   "\u00d8\u00a2\u00d8\u00ae\u00d8\u00b1 \u00d9\u00d8\u00b1\u00d8\u00b5\u00d8\u00a9",
   "\u00d8\u00a7\u00d9\u2020\u00d8\u00aa\u00d9\u2021\u00d8\u00aa \u00d8\u00b5\u00d9\u201e\u00d8\u00a7\u00d8\u00ad\u00d9\u0160\u00d8\u00a9",
   "\u00d8\u00aa\u00d9\u2020\u00d8\u00aa\u00d9\u2021\u00d9\u0160 \u00d8\u00a7\u00d9\u201e\u00d9\u0160\u00d9\u02c6\u00d9\u2026",
   "\u00d9\u2026\u00d8\u00ad\u00d8\u00a7\u00d9\u02c6\u00d9\u201e\u00d8\u00a9 \u00d8\u00a3\u00d8\u00ae\u00d9\u0160\u00d8\u00b1\u00d8\u00a9"]

def PHISHING_arabic_action : List String :=
  ["\u00d8\u00a7\u00d8\u00b6\u00d8\u00ba\u00d8\u00b7 \u00d9\u2021\u00d9\u2020\u00d8\u00a7",
   "\u00d8\u00a7\u00d9\u2020\u00d9\u201a\u00d8\u00b1 \u00d9\u00d9\u02c6\u00d8\u00b1\u00d8\u00a7\u00d9\u2039",
   "\u00d9\u201a\u00d9\u2026 \u00d8\u00a8\u00d8\u00a7\u00d9\u201e\u00d8\u00aa\u00d8\u00ad\u00d8\u00af\u00d9\u0160\u00d8\u00ab",
   "\u00d8\u00a3\u00d8\u00af\u00d8\u00ae\u00d9\u201e \u00d8\u00a8\u00d9\u0160\u00d8\u00a7\u00d9\u2020\u00d8\u00a7\u00d8\u00aa\u00d9\u0192",
   "\u00d8\u00aa\u00d8\u00ad\u00d9\u201a\u00d9\u201a \u00d9\u2026\u00d9\u2020 \u00d9\u2021\u00d9\u02c6\u00d9\u0160\u00d8\u00aa\u00d9\u0192",
   "\u00d8\u00a3\u00d9\u0192\u00d8\u00af \u00d8\u00ad\u00d8\u00b3\u00d8\u00a7\u00d8\u00a8\u00d9\u0192",
   "\u00d8\u00aa\u00d8\u00a3\u00d9\u0192\u00d9\u0160\u00d8\u00af \u00d8\u00a7\u00d9\u201e\u00d8\u00ad\u00d8\u00b3\u00d8\u00a7\u00d8\u00a8",
   "\u00d9\u201a\u00d9\u2026 \u00d8\u00a8\u00d8\u00a7\u00d9\u201e\u00d8\u00aa\u00d9\u00d8\u00b9\u00d9\u0160\u00d9\u201e",
   "\u00d8\u00b3\u00d8\u00ac\u00d9\u201e \u00d8\u00a7\u00d9\u201e\u00d8\u00af\u00d8\u00ae\u00d9\u02c6\u00d9\u201e",
   "\u00d8\u00a3\u00d8\u00b9\u00d8\u00af \u00d8\u00aa\u00d8\u00b3\u00d8\u00ac\u00d9\u0160\u00d9\u201e",
   "\u00d8\u00aa\u00d8\u00ad\u00d8\u00af\u00d9\u0160\u00d8\u00ab \u00d9\u2026\u00d8\u00b9\u00d9\u201e\u00d9\u02c6\u00d9\u2026\u00d8\u00a7\u00d8\u00aa\u00d9\u0192"]

def PHISHING_arabic_threat : List String :=
  ["\u00d8\u00b3\u00d9\u0160\u00d8\u00aa\u00d9\u2026 \u00d8\u00ad\u00d8\u00b0\u00d9",
   "\u00d9\u00d9\u201a\u00d8\u00af\u00d8\u00a7\u00d9\u2020 \u00d8\u00a7\u00d9\u201e\u00d9\u02c6\u00d8\u00b5\u00d9\u02c6\u00d9\u201e",
   "\u00d8\u00a5\u00d9\u201e\u00d8\u00ba\u00d8\u00a7\u00d8\u00a1 \u00d8\u00a7\u00d9\u201e\u00d8\u00ae\u00d8\u00af\u00d9\u2026\u00d8\u00a9",
   "\u00d8\u00b1\u00d8\u00b3\u00d9\u02c6\u00d9\u2026 \u00d8\u00a5\u00d8\u00b6\u00d8\u00a7\u00d9\u00d9\u0160\u00d8\u00a9",
   "\u00d8\u00b9\u00d9\u201a\u00d9\u02c6\u00d8\u00a8\u00d8\u00a9 \u00d9\u201a\u00d8\u00a7\u00d9\u2020\u00d9\u02c6\u00d9\u2020\u00d9\u0160\u00d8\u00a9",
   "\u00d8\u00a5\u00d8\u00ac\u00d8\u00b1\u00d8\u00a7\u00d8\u00a1 \u00d9\u201a\u00d8\u00a7\u00d9\u2020\u00d9\u02c6\u00d9\u2020\u00d9\u0160",
   "\u00d8\u00aa\u00d9\u2026 \u00d8\u00b1\u00d8\u00b5\u00d8\u00af \u00d9\u2020\u00d8\u00b4\u00d8\u00a7\u00d8\u00b7 \u00d9\u2026\u00d8\u00b4\u00d8\u00a8\u00d9\u02c6\u00d9\u2021",
   "\u00d9\u2026\u00d8\u00ad\u00d8\u00a7\u00d9\u02c6\u00d9\u201e\u00d8\u00a9 \u00d8\u00a7\u00d8\u00ae\u00d8\u00aa\u00d8\u00b1\u00d8\u00a7\u00d9\u201a",
   "\u00d8\u00a7\u00d9\u201e\u00d8\u00ad\u00d8\u00b3\u00d8\u00a7\u00d8\u00a8 \u00d9\u2026\u00d8\u00b9\u00d8\u00b1\u00d8\u00b6 \u00d9\u201e\u00d9\u201e\u00d8\u00ae\u00d8\u00b7\u00d8\u00b1"]

def PHISHING_arabic_reward : List String :=
  ["\u00d8\u00b1\u00d8\u00a8\u00d8\u00ad\u00d8\u00aa",
   "\u00d9\u00d8\u00b2\u00d8\u00aa",
   "\u00d9\u2026\u00d9\u0192\u00d8\u00a7\u00d9\u00d8\u00a3\u00d8\u00a9",
   "\u00d8\u00ac\u00d8\u00a7\u00d8\u00a6\u00d8\u00b2\u00d8\u00a9",
   "\u00d8\u00b9\u00d8\u00b1\u00d8\u00b6 \u00d8\u00ad\u00d8\u00b5\u00d8\u00b1\u00d9\u0160",
   "\u00d8\u00ae\u00d8\u00b5\u00d9\u2026 \u00d8\u00ae\u00d8\u00a7\u00d8\u00b5",
   "\u00d9\u2021\u00d8\u00af\u00d9\u0160\u00d8\u00a9 \u00d9\u2026\u00d8\u00ac\u00d8\u00a7\u00d9\u2020\u00d9\u0160\u00d8\u00a9",
   "\u00d8\u00a7\u00d8\u00b3\u00d8\u00aa\u00d8\u00b1\u00d8\u00af\u00d8\u00a7\u00d8\u00af \u00d9\u2020\u00d9\u201a\u00d8\u00af\u00d9\u0160"]

def PHISHING_arabic_verification : List String :=
  ["\u00d8\u00aa\u00d8\u00ad\u00d9\u201a\u00d9\u201a \u00d9\u2026\u00d9\u2020",
   "\u00d8\u00aa\u00d8\u00a3\u00d9\u0192\u00d9\u0160\u00d8\u00af",
   "\u00d9\u2026\u00d8\u00b1\u00d8\u00a7\u00d8\u00ac\u00d8\u00b9\u00d8\u00a9",
   "\u00d8\u00aa\u00d8\u00ad\u00d8\u00af\u00d9\u0160\u00d8\u00ab \u00d8\u00a8\u00d9\u0160\u00d8\u00a7\u00d9\u2020\u00d8\u00a7\u00d8\u00aa\u00d9\u0192",
   "\u00d8\u00a7\u00d8\u00b3\u00d8\u00aa\u00d9\u0192\u00d9\u2026\u00d8\u00a7\u00d9\u201e \u00d8\u00a7\u00d9\u201e\u00d8\u00aa\u00d8\u00b3\u00d8\u00ac\u00d9\u0160\u00d9\u201e",
   "\u00d8\u00a5\u00d8\u00b9\u00d8\u00a7\u00d8\u00af\u00d8\u00a9 \u00d8\u00a7\u00d9\u201e\u00d8\u00aa\u00d9\u00d8\u00b9\u00d9\u0160\u00d9\u201e"]

def PHISHING_english_urgency : List String :=
  ["suspended",
   "blocked",
   "locked",
   "will be closed",
   "within 24 hours",
   "expires today",
   "urgent",
   "immediately",
   "act now",
   "last chance",
   "final notice",
   "expires soon"]

def PHISHING_english_action : List String :=
  ["click here",
   "click now",
   "update now",
   "verify account",
   "confirm identity",
   "enter details",
   "login now",
   "re-register",
   "update information",
   "activate account"]

def PHISHING_english_threat : List String :=
  ["will be deleted",
   "lose access",
   "service cancellation",
   "additional fees",
   "legal action",
   "suspicious activity detected",
   "account compromised",
   "security breach"]

def PHISHING_english_reward : List String :=
  ["you won",
   "congratulations",
   "prize",
   "reward",
   "exclusive offer",
   "special discount",
   "free gift",
   "cash back",
   "claim now"]

def PHISHING_english_verification : List String :=
  ["verify",
   "confirm",
   "review",
   "update your details",
   "complete registration",
   "reactivate"]

def GOVERNMENT_SERVICES : List String :=
  ["\u00d8\u00a3\u00d8\u00a8\u00d8\u00b4\u00d8\u00b1",
   "absher",
   "\u00d9\u2020\u00d8\u00a7\u00d8\u00ac\u00d8\u00b2",
   "najiz",
   "\u00d9\u02c6\u00d8\u00b2\u00d8\u00a7\u00d8\u00b1\u00d8\u00a9",
   "ministry",
   "\u00d9\u2021\u00d9\u0160\u00d8\u00a6\u00d8\u00a9",
   "authority",
   "\u00d9\u2026\u00d8\u00a4\u00d8\u00b3\u00d8\u00b3\u00d8\u00a9",
   "institution",
   "\u00d8\u00ad\u00d9\u0192\u00d9\u02c6\u00d9\u2026\u00d8\u00a9",
   "government",
   "\u00d8\u00a7\u00d9\u201e\u00d8\u00b6\u00d9\u2026\u00d8\u00a7\u00d9\u2020",
   "gosi",
   "\u00d8\u00a7\u00d9\u201e\u00d8\u00b2\u00d9\u0192\u00d8\u00a7\u00d8\u00a9",
   "zatca",
   "\u00d8\u00a7\u00d9\u201e\u00d8\u00ac\u00d9\u02c6\u00d8\u00a7\u00d8\u00b2\u00d8\u00a7\u00d8\u00aa",
   "passport",
   "\u00d8\u00a7\u00d9\u201e\u00d9\u2026\u00d8\u00b1\u00d9\u02c6\u00d8\u00b1",
   "traffic",
   "\u00d8\u00a7\u00d9\u201e\u00d8\u00a3\u00d8\u00ad\u00d9\u02c6\u00d8\u00a7\u00d9\u201e",
   "civil affairs"]

def OFFICIAL_DOMAINS : List String :=
  ["absher.sa",
   "www.absher.sa",
   "moi.gov.sa",
   "www.moi.gov.sa",
   "my.gov.sa",
   "www.my.gov.sa",
   "sa.gov.sa",
   "www.sa.gov.sa",
   "najiz.sa",
   "www.najiz.sa",
   "elm.sa",
   "www.elm.sa",
   "spa.gov.sa",
   "www.spa.gov.sa",
   "mc.gov.sa",
   "www.mc.gov.sa",
   "moh.gov.sa",
   "www.moh.gov.sa",
   "moe.gov.sa",
   "www.moe.gov.sa",
   "hrsd.gov.sa",
   "www.hrsd.gov.sa",
   "zatca.gov.sa",
   "www.zatca.gov.sa",
   "gosi.gov.sa",
   "www.gosi.gov.sa"]

def URL_SHORTENERS : List String :=
  ["bit.ly",
   "tinyurl.com",
   "t.co",
   "goo.gl",
   "ow.ly",
   "short.link",
   "rebrand.ly",
   "buff.ly",
   "adf.ly",
   "bitly.com",
   "is.gd",
   "cutt.ly",
   "tiny.cc",
   "rb.gy",
   "bl.ink",
   "lnkd.in",
   "soo.gd",
   "clicky.me",
   "s.id",
   "shorturl.at",
   "tiny.one",
   "v.gd",
   "x.co",
   "tr.im",
   "tinyurl.cc",
   "snip.ly",
   "short.io"]

def SUSPICIOUS_TLDS : List String :=
  [".tk",
   ".ml",
   ".ga",
   ".cf",
   ".gq",
   ".xyz",
   ".top",
   ".club",
   ".online",
   ".work",
   ".click",
   ".link",
   ".live",
   ".info",
   ".bid",
   ".win",
   ".stream"]

def personalInfoKeywords : List String :=
  ["\u00d8\u00b1\u00d9\u201a\u00d9\u2026 \u00d8\u00a7\u00d9\u201e\u00d9\u2021\u00d9\u02c6\u00d9\u0160\u00d8\u00a9",
   "\u00d9\u0192\u00d9\u201e\u00d9\u2026\u00d8\u00a9 \u00d8\u00a7\u00d9\u201e\u00d9\u2026\u00d8\u00b1\u00d9\u02c6\u00d8\u00b1",
   "\u00d8\u00b1\u00d9\u201a\u00d9\u2026 \u00d8\u00a7\u00d9\u201e\u00d8\u00b3\u00d8\u00b1\u00d9\u0160",
   "\u00d8\u00a7\u00d9\u201e\u00d8\u00b1\u00d9\u201a\u00d9\u2026 \u00d8\u00a7\u00d9\u201e\u00d8\u00b3\u00d8\u00b1\u00d9\u0160",
   "\u00d8\u00a7\u00d9\u201e\u00d8\u00a8\u00d8\u00b7\u00d8\u00a7\u00d9\u201a\u00d8\u00a9",
   "\u00d8\u00b1\u00d9\u201a\u00d9\u2026 \u00d8\u00a7\u00d9\u201e\u00d8\u00ad\u00d8\u00b3\u00d8\u00a7\u00d8\u00a8",
   "\u00d9\u0192\u00d9\u02c6\u00d8\u00af \u00d8\u00a7\u00d9\u201e\u00d8\u00aa\u00d8\u00ad\u00d9\u201a\u00d9\u201a",
   "national id",
   "password",
   "pin",
   "card number",
   "account number",
   "verification code",
   "otp"]

def harvestingPatterns : List String :=
  ["login",
   "signin",
   "account",
   "verify",
   "confirm",
   "secure",
   "update",
   "suspended",
   "billing"]

def suspiciousPorts : List String :=
  [":8080",
   ":8888",
   ":3000",
   ":5000",
   ":8443"]

def misspelledTerms : List (String × String) :=
  [("\u00d8\u00a7\u00d8\u00a8\u00d8\u00b4\u00d8\u00b1", "\u00d8\u00a3\u00d8\u00a8\u00d8\u00b4\u00d8\u00b1"),
   ("\u00d9\u2020\u00d8\u00a7\u00d8\u00ac\u00d9\u0160\u00d8\u00b2", "\u00d9\u2020\u00d8\u00a7\u00d8\u00ac\u00d8\u00b2"),
   ("\u00d9\u02c6\u00d8\u00b2\u00d8\u00a7\u00d8\u00b1\u00d9\u2021", "\u00d9\u02c6\u00d8\u00b2\u00d8\u00a7\u00d8\u00b1\u00d8\u00a9")]

def warnIP : Lang → String
  | Lang.ar => "\u011f\u0178\u0161\u00a8 \u00d9\u0160\u00d8\u00b3\u00d8\u00aa\u00d8\u00ae\u00d8\u00af\u00d9\u2026 \u00d8\u00b9\u00d9\u2020\u00d9\u02c6\u00d8\u00a7\u00d9\u2020 IP \u00d8\u00a8\u00d8\u00af\u00d9\u201e\u00d8\u00a7\u00d9\u2039 \u00d9\u2026\u00d9\u2020 \u00d8\u00a7\u00d8\u00b3\u00d9\u2026 \u00d9\u2020\u00d8\u00b7\u00d8\u00a7\u00d9\u201a (\u00d8\u00b9\u00d9\u201e\u00d8\u00a7\u00d9\u2026\u00d8\u00a9 \u00d8\u00aa\u00d8\u00b5\u00d9\u0160\u00d8\u00af \u00d9\u201a\u00d9\u02c6\u00d9\u0160\u00d8\u00a9)"
  | Lang.en => "\u011f\u0178\u0161\u00a8 Uses IP address instead of domain name (strong phishing indicator)"

def warnPort : Lang → String
  | Lang.ar => "\u00e2\u0161\u00a0\u00ef\u00b8 \u00d9\u0160\u00d8\u00b3\u00d8\u00aa\u00d8\u00ae\u00d8\u00af\u00d9\u2026 \u00d9\u2026\u00d9\u2020\u00d9\u00d8\u00b0 \u00d8\u00b4\u00d8\u00a8\u00d9\u0192\u00d8\u00a9 \u00d8\u00ba\u00d9\u0160\u00d8\u00b1 \u00d9\u201a\u00d9\u0160\u00d8\u00a7\u00d8\u00b3\u00d9\u0160"
  | Lang.en => "\u00e2\u0161\u00a0\u00ef\u00b8 Uses non-standard network port"

def warnSubdomain : Lang → String
  | Lang.ar => "\u011f\u0178\u0161\u00a8 \u00d8\u00b9\u00d8\u00af\u00d8\u00af \u00d9\u2026\u00d9\u00d8\u00b1\u00d8\u00b7 \u00d9\u2026\u00d9\u2020 \u00d8\u00a7\u00d9\u201e\u00d9\u2020\u00d8\u00b7\u00d8\u00a7\u00d9\u201a\u00d8\u00a7\u00d8\u00aa \u00d8\u00a7\u00d9\u201e\u00d9\u00d8\u00b1\u00d8\u00b9\u00d9\u0160\u00d8\u00a9 (\u00d9\u2026\u00d8\u00ad\u00d8\u00a7\u00d9\u02c6\u00d9\u201e\u00d8\u00a9 \u00d8\u00a5\u00d8\u00ae\u00d9\u00d8\u00a7\u00d8\u00a1 \u00d8\u00a7\u00d9\u201e\u00d9\u2020\u00d8\u00b7\u00d8\u00a7\u00d9\u201a \u00d8\u00a7\u00d9\u201e\u00d8\u00ad\u00d9\u201a\u00d9\u0160\u00d9\u201a\u00d9\u0160)"
  | Lang.en => "\u011f\u0178\u0161\u00a8 Excessive subdomains (attempt to hide real domain)"

def warnUnicode : Lang → String
  | Lang.ar => "\u011f\u0178\u0161\u00a8 \u00d9\u0160\u00d8\u00ad\u00d8\u00aa\u00d9\u02c6\u00d9\u0160 \u00d8\u00b9\u00d9\u201e\u00d9\u2030 \u00d8\u00a3\u00d8\u00ad\u00d8\u00b1\u00d9 Unicode \u00d9\u2026\u00d8\u00b4\u00d8\u00a8\u00d9\u02c6\u00d9\u2021\u00d8\u00a9 (\u00d9\u2021\u00d8\u00ac\u00d9\u02c6\u00d9\u2026 \u00d8\u00aa\u00d8\u00b4\u00d8\u00a7\u00d8\u00a8\u00d9\u2021 \u00d8\u00a7\u00d9\u201e\u00d8\u00a3\u00d8\u00ad\u00d8\u00b1\u00d9)"
  | Lang.en => "\u011f\u0178\u0161\u00a8 Contains suspicious Unicode characters (homograph attack)"

def warnHarvest : Lang → String
  | Lang.ar => "\u011f\u0178\u0161\u00a8 \u00d8\u00b9\u00d8\u00a8\u00d8\u00a7\u00d8\u00b1\u00d8\u00a7\u00d8\u00aa \u00d9\u2026\u00d8\u00aa\u00d8\u00b9\u00d8\u00af\u00d8\u00af\u00d8\u00a9 \u00d9\u201e\u00d8\u00ac\u00d9\u2026\u00d8\u00b9 \u00d8\u00a7\u00d9\u201e\u00d8\u00a8\u00d9\u0160\u00d8\u00a7\u00d9\u2020\u00d8\u00a7\u00d8\u00aa \u00d9\u00d9\u0160 \u00d8\u00a7\u00d9\u201e\u00d8\u00b1\u00d8\u00a7\u00d8\u00a8\u00d8\u00b7"
  | Lang.en => "\u011f\u0178\u0161\u00a8 Multiple data-harvesting phrases in URL"

def warnLong : Lang → String
  | Lang.ar => "\u00e2\u0161\u00a0\u00ef\u00b8 \u00d8\u00b1\u00d8\u00a7\u00d8\u00a8\u00d8\u00b7 \u00d8\u00b7\u00d9\u02c6\u00d9\u0160\u00d9\u201e \u00d8\u00a8\u00d8\u00b4\u00d9\u0192\u00d9\u201e \u00d8\u00ba\u00d9\u0160\u00d8\u00b1 \u00d8\u00b9\u00d8\u00a7\u00d8\u00af\u00d9\u0160"
  | Lang.en => "\u00e2\u0161\u00a0\u00ef\u00b8 Unusually long URL"

def warnAt : Lang → String
  | Lang.ar => "\u011f\u0178\u0161\u00a8 \u00d9\u0160\u00d8\u00ad\u00d8\u00aa\u00d9\u02c6\u00d9\u0160 \u00d8\u00b9\u00d9\u201e\u00d9\u2030 @ (\u00d9\u0160\u00d8\u00ae\u00d9\u00d9\u0160 \u00d8\u00a7\u00d9\u201e\u00d9\u2020\u00d8\u00b7\u00d8\u00a7\u00d9\u201a \u00d8\u00a7\u00d9\u201e\u00d8\u00ad\u00d9\u201a\u00d9\u0160\u00d9\u201a\u00d9\u0160)"
  | Lang.en => "\u011f\u0178\u0161\u00a8 Contains @ symbol (hides real domain)"

def warnHyphen : Lang → String
  | Lang.ar => "\u00e2\u0161\u00a0\u00ef\u00b8 \u00d8\u00b9\u00d8\u00af\u00d8\u00af \u00d9\u0192\u00d8\u00a8\u00d9\u0160\u00d8\u00b1 \u00d9\u2026\u00d9\u2020 \u00d8\u00a7\u00d9\u201e\u00d8\u00b4\u00d8\u00b1\u00d8\u00b7\u00d8\u00a7\u00d8\u00aa (\u00d9\u2026\u00d8\u00ad\u00d8\u00a7\u00d9\u02c6\u00d9\u201e\u00d8\u00a9 \u00d8\u00aa\u00d9\u201a\u00d9\u201e\u00d9\u0160\u00d8\u00af \u00d9\u2020\u00d8\u00b7\u00d8\u00a7\u00d9\u201a \u00d9\u2026\u00d8\u00b9\u00d8\u00b1\u00d9\u02c6\u00d9)"
  | Lang.en => "\u00e2\u0161\u00a0\u00ef\u00b8 Excessive hyphens (typosquatting attempt)"

def warnShortener : Lang → String
  | Lang.ar => "\u011f\u0178\u0161\u00a8 \u00d9\u0160\u00d8\u00ad\u00d8\u00aa\u00d9\u02c6\u00d9\u0160 \u00d8\u00b9\u00d9\u201e\u00d9\u2030 \u00d8\u00b1\u00d9\u02c6\u00d8\u00a7\u00d8\u00a8\u00d8\u00b7 \u00d9\u2026\u00d8\u00ae\u00d8\u00aa\u00d8\u00b5\u00d8\u00b1\u00d8\u00a9 \u00d9\u2026\u00d8\u00b4\u00d8\u00a8\u00d9\u02c6\u00d9\u2021\u00d8\u00a9 (\u00d8\u00aa\u00d8\u00ae\u00d9\u00d9\u0160 \u00d8\u00a7\u00d9\u201e\u00d9\u02c6\u00d8\u00ac\u00d9\u2021\u00d8\u00a9 \u00d8\u00a7\u00d9\u201e\u00d8\u00ad\u00d9\u201a\u00d9\u0160\u00d9\u201a\u00d9\u0160\u00d8\u00a9)"
  | Lang.en => "\u011f\u0178\u0161\u00a8 Contains suspicious shortened URLs (hides real destination)"

def warnInsecure : Lang → String
  | Lang.ar => "\u00e2\u0161\u00a0\u00ef\u00b8 \u00d9\u0160\u00d8\u00ad\u00d8\u00aa\u00d9\u02c6\u00d9\u0160 \u00d8\u00b9\u00d9\u201e\u00d9\u2030 \u00d8\u00b1\u00d9\u02c6\u00d8\u00a7\u00d8\u00a8\u00d8\u00b7 \u00d8\u00ba\u00d9\u0160\u00d8\u00b1 \u00d8\u00a2\u00d9\u2026\u00d9\u2020\u00d8\u00a9 (http \u00d8\u00a8\u00d8\u00af\u00d9\u02c6\u00d9\u2020 \u00d8\u00aa\u00d8\u00b4\u00d9\u00d9\u0160\u00d8\u00b1)"
  | Lang.en => "\u00e2\u0161\u00a0\u00ef\u00b8 Contains insecure links (http without encryption)"

def warnTLD : Lang → String
  | Lang.ar => "\u011f\u0178\u0161\u00a8 \u00d9\u0160\u00d8\u00ad\u00d8\u00aa\u00d9\u02c6\u00d9\u0160 \u00d8\u00b9\u00d9\u201e\u00d9\u2030 \u00d9\u2020\u00d8\u00b7\u00d8\u00a7\u00d9\u201a\u00d8\u00a7\u00d8\u00aa \u00d9\u2026\u00d8\u00b4\u00d8\u00a8\u00d9\u02c6\u00d9\u2021\u00d8\u00a9 \u00d9\u2026\u00d8\u00b9\u00d8\u00b1\u00d9\u02c6\u00d9\u00d8\u00a9 \u00d8\u00a8\u00d8\u00a7\u00d9\u201e\u00d8\u00a7\u00d8\u00ad\u00d8\u00aa\u00d9\u0160\u00d8\u00a7\u00d9\u201e"
  | Lang.en => "\u011f\u0178\u0161\u00a8 Contains suspicious domains known for fraud"

def warnOfficial : Lang → String
  | Lang.ar => "\u00e2\u0153\u2026 \u00d9\u0160\u00d8\u00ad\u00d8\u00aa\u00d9\u02c6\u00d9\u0160 \u00d8\u00b9\u00d9\u201e\u00d9\u2030 \u00d8\u00b1\u00d8\u00a7\u00d8\u00a8\u00d8\u00b7 \u00d9\u2026\u00d9\u2020 \u00d9\u2026\u00d9\u02c6\u00d9\u201a\u00d8\u00b9 \u00d8\u00ad\u00d9\u0192\u00d9\u02c6\u00d9\u2026\u00d9\u0160 \u00d8\u00b1\u00d8\u00b3\u00d9\u2026\u00d9\u0160 \u00d9\u2026\u00d8\u00b9\u00d8\u00aa\u00d9\u2026\u00d8\u00af"
  | Lang.en => "\u00e2\u0153\u2026 Contains link from verified official government website"

def warnGov : Lang → String
  | Lang.ar => "\u011f\u0178\u0161\u00a8 \u00d9\u0160\u00d8\u00b0\u00d9\u0192\u00d8\u00b1 \u00d8\u00ae\u00d8\u00af\u00d9\u2026\u00d8\u00a7\u00d8\u00aa \u00d8\u00ad\u00d9\u0192\u00d9\u02c6\u00d9\u2026\u00d9\u0160\u00d8\u00a9 \u00d9\u201e\u00d9\u0192\u00d9\u2020 \u00d8\u00a7\u00d9\u201e\u00d8\u00b1\u00d8\u00a7\u00d8\u00a8\u00d8\u00b7 \u00d9\u201e\u00d9\u0160\u00d8\u00b3 \u00d9\u2026\u00d9\u2020 \u00d8\u00a7\u00d9\u201e\u00d9\u2020\u00d8\u00b7\u00d8\u00a7\u00d9\u201a \u00d8\u00a7\u00d9\u201e\u00d8\u00b1\u00d8\u00b3\u00d9\u2026\u00d9\u0160 (\u00d8\u00aa\u00d8\u00b5\u00d9\u0160\u00d8\u00af \u00d8\u00a7\u00d8\u00ad\u00d8\u00aa\u00d9\u0160\u00d8\u00a7\u00d9\u201e\u00d9\u0160)"
  | Lang.en => "\u011f\u0178\u0161\u00a8 Mentions government services but link is not from official domain (impersonation)"

def warnUrgency (lang : Lang) (n : Nat) : String :=
  match lang with
  | Lang.ar => "\u011f\u0178\u0161\u00a8 \u00d9\u0160\u00d8\u00b3\u00d8\u00aa\u00d8\u00ae\u00d8\u00af\u00d9\u2026 \u00d8\u00a3\u00d8\u00b3\u00d8\u00a7\u00d9\u201e\u00d9\u0160\u00d8\u00a8 \u00d8\u00a7\u00d9\u201e\u00d8\u00b6\u00d8\u00ba\u00d8\u00b7 \u00d9\u02c6\u00d8\u00a7\u00d9\u201e\u00d8\u00a7\u00d8\u00b3\u00d8\u00aa\u00d8\u00b9\u00d8\u00ac\u00d8\u00a7\u00d9\u201e (" ++ (toString n) ++ " \u00d9\u2026\u00d8\u00a4\u00d8\u00b4\u00d8\u00b1)"
  | Lang.en => "\u011f\u0178\u0161\u00a8 Uses pressure and urgency tactics (" ++ (toString n) ++ " indicators)"

def warnPhishing (lang : Lang) (n : Nat) : String :=
  match lang with
  | Lang.ar => "\u00e2\u0161\u00a0\u00ef\u00b8 \u00d9\u0160\u00d8\u00ad\u00d8\u00aa\u00d9\u02c6\u00d9\u0160 \u00d8\u00b9\u00d9\u201e\u00d9\u2030 \u00d8\u00b9\u00d8\u00a8\u00d8\u00a7\u00d8\u00b1\u00d8\u00a7\u00d8\u00aa \u00d8\u00a7\u00d8\u00ad\u00d8\u00aa\u00d9\u0160\u00d8\u00a7\u00d9\u201e\u00d9\u0160\u00d8\u00a9 \u00d9\u2020\u00d9\u2026\u00d9\u02c6\u00d8\u00b0\u00d8\u00ac\u00d9\u0160\u00d8\u00a9 (" ++ (toString n) ++ " \u00d8\u00b9\u00d8\u00a8\u00d8\u00a7\u00d8\u00b1\u00d8\u00a9)"
  | Lang.en => "\u00e2\u0161\u00a0\u00ef\u00b8 Contains typical phishing phrases (" ++ (toString n) ++ " phrases)"

def warnMultiple : Lang → String
  | Lang.ar => "\u00e2\u0161\u00a0\u00ef\u00b8 \u00d9\u0160\u00d8\u00ad\u00d8\u00aa\u00d9\u02c6\u00d9\u0160 \u00d8\u00b9\u00d9\u201e\u00d9\u2030 \u00d8\u00b9\u00d8\u00af\u00d8\u00a9 \u00d8\u00b1\u00d9\u02c6\u00d8\u00a7\u00d8\u00a8\u00d8\u00b7 \u00d9\u2026\u00d8\u00ae\u00d8\u00aa\u00d9\u201e\u00d9\u00d8\u00a9 (\u00d8\u00b3\u00d9\u201e\u00d8\u00b3\u00d9\u201e\u00d8\u00a9 \u00d8\u00a5\u00d8\u00b9\u00d8\u00a7\u00d8\u00af\u00d8\u00a9 \u00d8\u00aa\u00d9\u02c6\u00d8\u00ac\u00d9\u0160\u00d9\u2021)"
  | Lang.en => "\u00e2\u0161\u00a0\u00ef\u00b8 Contains multiple different links (redirect chain)"

def warnUnofficial : Lang → String
  | Lang.ar => "\u00e2\u0161\u00a0\u00ef\u00b8 \u00d9\u0160\u00d8\u00ad\u00d8\u00aa\u00d9\u02c6\u00d9\u0160 \u00d8\u00b9\u00d9\u201e\u00d9\u2030 \u00d8\u00b1\u00d9\u02c6\u00d8\u00a7\u00d8\u00a8\u00d8\u00b7 \u00d9\u2026\u00d9\u2020 \u00d9\u2026\u00d8\u00b5\u00d8\u00a7\u00d8\u00af\u00d8\u00b1 \u00d8\u00ba\u00d9\u0160\u00d8\u00b1 \u00d8\u00b1\u00d8\u00b3\u00d9\u2026\u00d9\u0160\u00d8\u00a9"
  | Lang.en => "\u00e2\u0161\u00a0\u00ef\u00b8 Contains links from unofficial sources"

def warnPersonal : Lang → String
  | Lang.ar => "\u011f\u0178\u0161\u00a8 \u00d9\u0160\u00d8\u00b7\u00d9\u201e\u00d8\u00a8 \u00d9\u2026\u00d8\u00b9\u00d9\u201e\u00d9\u02c6\u00d9\u2026\u00d8\u00a7\u00d8\u00aa \u00d8\u00b4\u00d8\u00ae\u00d8\u00b5\u00d9\u0160\u00d8\u00a9 \u00d8\u00ad\u00d8\u00b3\u00d8\u00a7\u00d8\u00b3\u00d8\u00a9"
  | Lang.en => "\u011f\u0178\u0161\u00a8 Requests sensitive personal information"

def warnMixed : Lang → String
  | Lang.ar => "\u00e2\u0161\u00a0\u00ef\u00b8 \u00d8\u00ae\u00d9\u201e\u00d9\u0160\u00d8\u00b7 \u00d8\u00ba\u00d9\u0160\u00d8\u00b1 \u00d8\u00b7\u00d8\u00a8\u00d9\u0160\u00d8\u00b9\u00d9\u0160 \u00d8\u00a8\u00d9\u0160\u00d9\u2020 \u00d8\u00a7\u00d9\u201e\u00d8\u00b9\u00d8\u00b1\u00d8\u00a8\u00d9\u0160\u00d8\u00a9 \u00d9\u02c6\u00d8\u00a7\u00d9\u201e\u00d8\u00a5\u00d9\u2020\u00d8\u00ac\u00d9\u201e\u00d9\u0160\u00d8\u00b2\u00d9\u0160\u00d8\u00a9"
  | Lang.en => "\u00e2\u0161\u00a0\u00ef\u00b8 Unnatural mix of Arabic and English"

def warnMisspell (lang : Lang) (w c : String) : String :=
  match lang with
  | Lang.ar => "\u00e2\u0161\u00a0\u00ef\u00b8 \u00d8\u00a3\u00d8\u00ae\u00d8\u00b7\u00d8\u00a7\u00d8\u00a1 \u00d8\u00a5\u00d9\u2026\u00d9\u201e\u00d8\u00a7\u00d8\u00a6\u00d9\u0160\u00d8\u00a9 \u00d9\u00d9\u0160 \u00d8\u00a3\u00d8\u00b3\u00d9\u2026\u00d8\u00a7\u00d8\u00a1 \u00d8\u00b1\u00d8\u00b3\u00d9\u2026\u00d9\u0160\u00d8\u00a9: \"" ++ w ++ "\" \u00d8\u00a8\u00d8\u00af\u00d9\u201e\u00d8\u00a7\u00d9\u2039 \u00d9\u2026\u00d9\u2020 \"" ++ c ++ "\""
  | Lang.en => "\u00e2\u0161\u00a0\u00ef\u00b8 Spelling errors in official names: \"" ++ w ++ "\" instead of \"" ++ c ++ "\""

def explanationOf (lang : Lang) (n : Nat) : String :=
  match lang with
  | Lang.ar => "\u00d8\u00aa\u00d9\u2026 \u00d9\u00d8\u00ad\u00d8\u00b5 \u00d8\u00a7\u00d9\u201e\u00d8\u00b1\u00d8\u00b3\u00d8\u00a7\u00d9\u201e\u00d8\u00a9 \u00d8\u00a8\u00d8\u00a7\u00d9\u201e\u00d8\u00b0\u00d9\u0192\u00d8\u00a7\u00d8\u00a1 \u00d8\u00a7\u00d9\u201e\u00d8\u00a7\u00d8\u00b5\u00d8\u00b7\u00d9\u2020\u00d8\u00a7\u00d8\u00b9\u00d9\u0160 \u00d9\u02c6\u00d8\u00aa\u00d8\u00ad\u00d9\u201e\u00d9\u0160\u00d9\u201e " ++ (toString n) ++ " \u00d9\u2026\u00d8\u00a4\u00d8\u00b4\u00d8\u00b1 \u00d8\u00a3\u00d9\u2026\u00d9\u2020\u00d9\u0160"
  | Lang.en => "Message analyzed with AI and " ++ (toString n) ++ " security indicators checked"

def warnMLHigh (lang : Lang) (u : String) (pct : Int) : String :=
  match lang with
  | Lang.ar => "\u011f\u0178\u00a4\u2013 \u00d8\u00a7\u00d9\u201e\u00d8\u00b0\u00d9\u0192\u00d8\u00a7\u00d8\u00a1 \u00d8\u00a7\u00d9\u201e\u00d8\u00a7\u00d8\u00b5\u00d8\u00b7\u00d9\u2020\u00d8\u00a7\u00d8\u00b9\u00d9\u0160: \u00d8\u00a7\u00d9\u201e\u00d8\u00b1\u00d8\u00a7\u00d8\u00a8\u00d8\u00b7 " ++ u ++ " \u00d8\u00b9\u00d8\u00a7\u00d9\u201e\u00d9\u0160 \u00d8\u00a7\u00d9\u201e\u00d8\u00ae\u00d8\u00b7\u00d9\u02c6\u00d8\u00b1\u00d8\u00a9 (" ++ (toString pct) ++ "%)"
  | Lang.en => "\u011f\u0178\u00a4\u2013 AI: URL " ++ u ++ " is high-risk (" ++ (toString pct) ++ "%)"

def warnMLMed (lang : Lang) (u : String) (pct : Int) : String :=
  match lang with
  | Lang.ar => "\u011f\u0178\u00a4\u2013 \u00d8\u00a7\u00d9\u201e\u00d8\u00b0\u00d9\u0192\u00d8\u00a7\u00d8\u00a1 \u00d8\u00a7\u00d9\u201e\u00d8\u00a7\u00d8\u00b5\u00d8\u00b7\u00d9\u2020\u00d8\u00a7\u00d8\u00b9\u00d9\u0160: \u00d8\u00a7\u00d9\u201e\u00d8\u00b1\u00d8\u00a7\u00d8\u00a8\u00d8\u00b7 " ++ u ++ " \u00d9\u2026\u00d8\u00b4\u00d8\u00a8\u00d9\u02c6\u00d9\u2021 (" ++ (toString pct) ++ "%)"
  | Lang.en => "\u011f\u0178\u00a4\u2013 AI: URL " ++ u ++ " is suspicious (" ++ (toString pct) ++ "%)"

def trSafe : Lang → String
  | Lang.ar => "\u00d8\u00a2\u00d9\u2026\u00d9\u2020\u00d8\u00a9 \u00d8\u00ba\u00d8\u00a7\u00d9\u201e\u00d8\u00a8\u00d8\u00a7\u00d9\u2039"
  | Lang.en => "Likely Safe"

def trSuspicious : Lang → String
  | Lang.ar => "\u00d9\u2026\u00d8\u00b4\u00d8\u00a8\u00d9\u02c6\u00d9\u2021\u00d8\u00a9"
  | Lang.en => "Suspicious"

def trFraud : Lang → String
  | Lang.ar => "\u00d8\u00a7\u00d8\u00ad\u00d8\u00aa\u00d9\u0160\u00d8\u00a7\u00d9\u201e\u00d9\u0160\u00d8\u00a9"
  | Lang.en => "Fraudulent"


/-- The anchored test `/^https?:\/\/\d{1,3}\.\d{1,3}\.\d{1,3}\.\d{1,3}/.test(url)`
(case-sensitive, no `i` flag): each of the first three digit runs must have
length 1-3 and be followed by a dot, and a digit must follow the third dot. -/
def octetDot (l : List Char) : Option (List Char) :=
  let d := l.takeWhile isDigitC
  let r := l.dropWhile isDigitC
  if 1 ≤ d.length && d.length ≤ 3 then
    match r with
    | '.' :: r2 => some r2
    | _ => none
  else none

def ipPatternTest (url : String) : Bool :=
  let afterScheme : Option (List Char) :=
    match stripL ['h', 't', 't', 'p'] url.data with
    | none => none
    | some r =>
      match stripL ['s', ':', '/', '/'] r with
      | some r2 => some r2
      | none => stripL [':', '/', '/'] r
  match afterScheme with
  | none => false
  | some r =>
    match octetDot r with
    | none => false
    | some r1 =>
      match octetDot r1 with
      | none => false
      | some r2 =>
        match octetDot r2 with
        | none => false
        | some r3 =>
          match r3 with
          | c :: _ => isDigitC c
          | [] => false

/-- `analyzeURLAdvanced` (src/script.js:349-448): eight structural checks on a
single URL, each adding a weight and pushing one localized flag. -/
def analyzeURLAdvanced (lang : Lang) (url : String) : Int × List String :=
  let urlLower := lowerStr url
  let b1 := if ipPatternTest url then (WEIGHTS.IP_ADDRESS_URL, [warnIP lang])
            else ((0 : Int), ([] : List String))
  let b2 := if suspiciousPorts.any (fun p => containsStr urlLower p) then ((18 : Int), [warnPort lang])
            else (0, [])
  let domainParts :=
    match (splitOnC '/' urlLower.data).get? 2 with
    | some h => splitOnC '.' h
    | none => []
  let b3 := if 4 < domainParts.length then (WEIGHTS.EXCESSIVE_SUBDOMAIN, [warnSubdomain lang])
            else (0, [])
  let hasUnicode := url.data.any (fun c => 0x7F < c.toNat) && !url.data.any isArabicChar
  let b4 := if hasUnicode then (WEIGHTS.UNICODE_HOMOGRAPH, [warnUnicode lang]) else (0, [])
  let b5 := if 2 ≤ (harvestingPatterns.filter (fun p => containsStr urlLower p)).length then
              (WEIGHTS.DATA_HARVESTING, [warnHarvest lang])
            else (0, [])
  let b6 := if 100 < utf16Len url then ((15 : Int), [warnLong lang]) else (0, [])
  let b7 := if url.data.contains '@' then ((30 : Int), [warnAt lang]) else (0, [])
  let b8 := if 3 < (url.data.filter (fun c => c == '-')).length then ((20 : Int), [warnHyphen lang])
            else (0, [])
  (b1.1 + b2.1 + b3.1 + b4.1 + b5.1 + b6.1 + b7.1 + b8.1,
   b1.2 ++ b2.2 ++ b3.2 ++ b4.2 ++ b5.2 ++ b6.2 ++ b7.2 ++ b8.2)

/-- `OFFICIAL_DOMAINS.some(official => url.toLowerCase().includes(official))`
(src/script.js:469). -/
def isOfficialURL (url : String) : Bool :=
  OFFICIAL_DOMAINS.any (fun official => containsStr (lowerStr url) official)

/-- `URL_SHORTENERS.some(shortener => url.toLowerCase().includes(shortener))`. -/
def shortenerHit (url : String) : Bool :=
  URL_SHORTENERS.any (fun shortener => containsStr (lowerStr url) shortener)

/-- `url.toLowerCase().startsWith('http://') && !url.toLowerCase().includes('.gov.sa')`. -/
def insecureHit (url : String) : Bool :=
  startsStr (lowerStr url) "http://" && !containsStr (lowerStr url) ".gov.sa"

/-- `SUSPICIOUS_TLDS.some(tld => url.toLowerCase().endsWith(tld))`
(src/script.js:501): note this tests the END OF THE WHOLE URL STRING. -/
def tldHit (url : String) : Bool :=
  SUSPICIOUS_TLDS.any (fun tld => endsStr (lowerStr url) tld)

/-- The body of the per-URL `forEach` for a non-official URL
(src/script.js:474-508): advanced analysis, shortener, insecure protocol and
suspicious-TLD checks, in source order. -/
def urlChecks (lang : Lang) (url : String) : Int × List String :=
  let adv := analyzeURLAdvanced lang url
  let sh := if shortenerHit url then (WEIGHTS.URL_SHORTENER, [warnShortener lang])
            else ((0 : Int), ([] : List String))
  let ins := if insecureHit url then (WEIGHTS.INSECURE_PROTOCOL, [warnInsecure lang]) else (0, [])
  let tl := if tldHit url then (WEIGHTS.SUSPICIOUS_TLD, [warnTLD lang]) else (0, [])
  (adv.1 + sh.1 + ins.1 + tl.1, adv.2 ++ sh.2 ++ ins.2 ++ tl.2)

/-- One iteration of the `forEach` (src/script.js:467-509): an official URL
contributes nothing (the `return` skips every check for that URL). -/
def urlContrib (lang : Lang) (url : String) : Int × List String :=
  if isOfficialURL url then (0, []) else urlChecks lang url

/-- The whole URL loop, accumulating score and warnings in order. -/
def urlsPart (lang : Lang) (urls : List String) : Int × List String :=
  urls.foldl (fun acc u => (acc.1 + (urlContrib lang u).1, acc.2 ++ (urlContrib lang u).2))
    ((0 : Int), ([] : List String))

/-- `urls.length > 0`. -/
def hasUrlsB (text : String) : Bool := !(extractURLs text).isEmpty

/-- The `hasOfficialDomain` flag after the loop: some extracted URL matches
the official-domain allow-list. -/
def hasOfficialB (text : String) : Bool := (extractURLs text).any isOfficialURL

def urlLoopPart (lang : Lang) (text : String) : Int × List String :=
  urlsPart lang (extractURLs text)

/-- Official-domain bonus (src/script.js:513-520): a single -30, applied once. -/
def officialPart (lang : Lang) (text : String) : Int × List String :=
  if hasOfficialB text then ((-30 : Int), [warnOfficial lang]) else (0, [])

/-- `GOVERNMENT_SERVICES.some(keyword => textLower.includes(keyword.toLowerCase()))`. -/
def mentionsGovernment (text : String) : Bool :=
  GOVERNMENT_SERVICES.any (fun keyword => containsStr (lowerStr text) (lowerStr keyword))

/-- Government impersonation (src/script.js:527-534). -/
def govPart (lang : Lang) (text : String) : Int × List String :=
  if mentionsGovernment text && hasUrlsB text && !hasOfficialB text then
    (WEIGHTS.FAKE_GOVERNMENT, [warnGov lang])
  else (0, [])

/-- `urgencyMatches` (src/script.js:537-543): number of urgency patterns (both
lexicons) contained in the lowercased text. -/
def urgencyMatches (text : String) : Nat :=
  ((PHISHING_arabic_urgency ++ PHISHING_english_urgency).filter
    (fun p => containsStr (lowerStr text) p)).length

/-- Urgency tactics block (src/script.js:545-553). -/
def urgencyPart (lang : Lang) (text : String) : Int × List String :=
  if 0 < urgencyMatches text then
    (min ((urgencyMatches text : Int) * 12) WEIGHTS.URGENCY_TACTICS,
     [warnUrgency lang (urgencyMatches text)])
  else (0, [])

/-- `Object.values(PHISHING_PATTERNS.arabic)` then `...english`, flattened in
insertion order. -/
def allPhishingPatterns : List String :=
  PHISHING_arabic_urgency ++ PHISHING_arabic_action ++ PHISHING_arabic_threat ++
  PHISHING_arabic_reward ++ PHISHING_arabic_verification ++
  PHISHING_english_urgency ++ PHISHING_english_action ++ PHISHING_english_threat ++
  PHISHING_english_reward ++ PHISHING_english_verification

/-- `phishingIndicators` (src/script.js:556-566). -/
def phishingIndicators (text : String) : Nat :=
  (allPhishingPatterns.filter (fun p => containsStr (lowerStr text) p)).length

/-- Phishing keywords block (src/script.js:568-576). -/
def phishingPart (lang : Lang) (text : String) : Int × List String :=
  if 3 ≤ phishingIndicators text then
    (min ((phishingIndicators text : Int) * 8) WEIGHTS.PHISHING_KEYWORDS,
     [warnPhishing lang (phishingIndicators text)])
  else (0, [])

/-- Multiple links block (src/script.js:579-586). -/
def multiPart (lang : Lang) (text : String) : Int × List String :=
  if 2 < (extractURLs text).length then (WEIGHTS.MULTIPLE_REDIRECTS, [warnMultiple lang])
  else (0, [])

/-- Unofficial sources block (src/script.js:589-596). -/
def unofficialPart (lang : Lang) (text : String) : Int × List String :=
  if hasUrlsB text && !hasOfficialB text then (WEIGHTS.UNOFFICIAL_SOURCE, [warnUnofficial lang])
  else (0, [])

/-- `personalInfoKeywords.some(keyword => textLower.includes(keyword.toLowerCase()))`. -/
def personalInfoHit (text : String) : Bool :=
  personalInfoKeywords.any (fun keyword => containsStr (lowerStr text) (lowerStr keyword))

/-- Personal information block (src/script.js:606-613). -/
def personalPart (lang : Lang) (text : String) : Int × List String :=
  if personalInfoHit text then ((25 : Int), [warnPersonal lang]) else (0, [])

/-- Mixed language check (src/script.js:616-631); `0.2` is modelled as the
exact rational `1/5` and `text.length` as the UTF-16 length. -/
def mixedLangHit (text : String) : Bool :=
  let hasArabic := text.data.any isArabicChar
  let hasEnglish := text.data.any isAsciiLetter
  if hasArabic && hasEnglish then
    let len : ℚ := (utf16Len text : ℚ)
    let arabicRatio : ℚ := ((text.data.filter isArabicChar).length : ℚ) / len
    let englishRatio : ℚ := ((text.data.filter isAsciiLetter).length : ℚ) / len
    decide (|arabicRatio - englishRatio| < 1 / 5 ∧ 1 / 5 < arabicRatio)
  else false

def mixedPart (lang : Lang) (text : String) : Int × List String :=
  if mixedLangHit text then ((12 : Int), [warnMixed lang]) else (0, [])

/-- Misspelled official terms (src/script.js:634-649); note the check runs on
the ORIGINAL text, not the lowercased one. -/
def misspellPart (lang : Lang) (text : String) : Int × List String :=
  misspelledTerms.foldl
    (fun acc term =>
      if containsStr text term.1 then (acc.1 + 15, acc.2 ++ [warnMisspell lang term.1 term.2])
      else acc)
    ((0 : Int), ([] : List String))

/-- The risk score accumulated by `performEnhancedAnalysis` before the clamp,
as the sum of the per-block contributions in source order. -/
def totalRaw (lang : Lang) (text : String) : Int :=
  (urlLoopPart lang text).1 + (officialPart lang text).1 + (govPart lang text).1 +
  (urgencyPart lang text).1 + (phishingPart lang text).1 + (multiPart lang text).1 +
  (unofficialPart lang text).1 + (personalPart lang text).1 + (mixedPart lang text).1 +
  (misspellPart lang text).1

/-- The warnings pushed by `performEnhancedAnalysis`, in push order, before the
final `slice(0, 10)`. -/
def warningsRaw (lang : Lang) (text : String) : List String :=
  (urlLoopPart lang text).2 ++ (officialPart lang text).2 ++ (govPart lang text).2 ++
  (urgencyPart lang text).2 ++ (phishingPart lang text).2 ++ (multiPart lang text).2 ++
  (unofficialPart lang text).2 ++ (personalPart lang text).2 ++ (mixedPart lang text).2 ++
  (misspellPart lang text).2

/-- Tier mapping (src/script.js:657-669). -/
def classify (s : Int) : String :=
  if s ≤ SAFE_THRESHOLD then "SAFE"
  else if s ≤ SUSPICIOUS_THRESHOLD then "SUSPICIOUS"
  else "FRAUD"

def classifyAr (lang : Lang) (s : Int) : String :=
  if s ≤ SAFE_THRESHOLD then trSafe lang
  else if s ≤ SUSPICIOUS_THRESHOLD then trSuspicious lang
  else trFraud lang

def classifyIcon (s : Int) : String :=
  if s ≤ SAFE_THRESHOLD then "âœ…"
  else if s ≤ SUSPICIOUS_THRESHOLD then "âš ï¸"
  else "âŒ"

/-- The result object returned by the engine. -/
structure AnalysisResult where
  classification : String
  classification_ar : String
  riskScore : Int
  icon : String
  explanation : String
  warnings : List String
  urlsFound : Nat
deriving DecidableEq

/-- `performEnhancedAnalysis` (src/script.js:454-684). -/
def performEnhancedAnalysis (lang : Lang) (text : String) : AnalysisResult :=
  let riskScore := clamp (totalRaw lang text)
  { classification := classify riskScore
    classification_ar := classifyAr lang riskScore
    riskScore := riskScore
    icon := classifyIcon riskScore
    explanation := explanationOf lang (warningsRaw lang text).length
    warnings := (warningsRaw lang text).take 10
    urlsFound := (extractURLs text).length }

/-- One element of `mlData.url_predictions`. -/
structure MLPrediction where
  url : String
  probability : ℚ
deriving DecidableEq

/-- The `mlData` argument of `combineMLWithEnhancedAnalysis`; the
`url_predictions` field may itself be absent. -/
structure MLData where
  url_predictions : Option (List MLPrediction)
deriving DecidableEq

/-- The `forEach` over `mlPredictions` (src/script.js:701-721), accumulating
`mlBoost` and `mlWarnings`. -/
def mlPart (lang : Lang) (preds : List MLPrediction) : Int × List String :=
  preds.foldl
    (fun acc pred =>
      if ML_HIGH_CONFIDENCE ≤ pred.probability then
        (acc.1 + 35, acc.2 ++ [warnMLHigh lang pred.url (jsRound (pred.probability * 100))])
      else if ML_MEDIUM_CONFIDENCE ≤ pred.probability then
        (acc.1 + 20, acc.2 ++ [warnMLMed lang pred.url (jsRound (pred.probability * 100))])
      else if ML_LOW_CONFIDENCE ≤ pred.probability then (acc.1 + 8, acc.2)
      else acc)
    ((0 : Int), ([] : List String))

/-- `combineMLWithEnhancedAnalysis` (src/script.js:690-744).  With no ML data,
no `url_predictions` field, or an empty prediction list, the rule-based result
is returned unchanged.  Otherwise the boost is added, the score re-clamped and
re-classified, and the ML warnings are appended to the (already truncated)
warning list — the code does NOT re-truncate. -/
def combineMLWithEnhancedAnalysis (lang : Lang) (text : String) (mlData : Option MLData) :
    AnalysisResult :=
  let ruleBasedResult := performEnhancedAnalysis lang text
  match mlData with
  | none => ruleBasedResult
  | some d =>
    match d.url_predictions with
    | none => ruleBasedResult
    | some [] => ruleBasedResult
    | some preds =>
      let ml := mlPart lang preds
      let riskScore := clamp (ruleBasedResult.riskScore + ml.1)
      { classification := classify riskScore
        classification_ar := classifyAr lang riskScore
        riskScore := riskScore
        icon := classifyIcon riskScore
        explanation := ruleBasedResult.explanation
        warnings := ruleBasedResult.warnings ++ ml.2
        urlsFound := ruleBasedResult.urlsFound }

/-- The host segment `url.split('/')[2]` (lowercased), as computed by the
subdomain check of `analyzeURLAdvanced`; used to express what "the host of a
CandidateURL" means when stating claims about hosts. -/
def hostOf (url : String) : Option String :=
  ((splitOnC '/' (lowerStr url).data).get? 2).map (fun l => (⟨l⟩ : String))

/-! ## Helper lemmas -/

theorem clamp_bounds (x : Int) : 0 ≤ clamp x ∧ clamp x ≤ 100 :=
  ⟨le_max_left _ _, max_le (by norm_num) (min_le_left _ _)⟩

theorem fstIte {c : Prop} [Decidable c] (a b : Int × List String) :
    (if c then a else b).1 = if c then a.1 else b.1 := by
  split <;> rfl

theorem iteBlock_nonneg {c : Prop} [Decidable c] {w : Int} {ws : List String} (hw : 0 ≤ w) :
    0 ≤ (if c then (w, ws) else ((0 : Int), ([] : List String))).1 := by
  split
  · exact hw
  · exact le_refl 0

theorem analyzeURLAdvanced_fst_nonneg (lang : Lang) (url : String) :
    0 ≤ (analyzeURLAdvanced lang url).1 := by
  simp only [analyzeURLAdvanced]
  repeat' apply add_nonneg
  all_goals exact iteBlock_nonneg (by decide)

theorem urlChecks_fst_eq (lang : Lang) (url : String) :
    (urlChecks lang url).1 =
      (analyzeURLAdvanced lang url).1 +
      (if shortenerHit url then WEIGHTS.URL_SHORTENER else 0) +
      (if insecureHit url then WEIGHTS.INSECURE_PROTOCOL else 0) +
      (if tldHit url then WEIGHTS.SUSPICIOUS_TLD else 0) := by
  simp [urlChecks, fstIte]

theorem urlChecks_fst_nonneg (lang : Lang) (url : String) : 0 ≤ (urlChecks lang url).1 := by
  rw [urlChecks_fst_eq]
  have h := analyzeURLAdvanced_fst_nonneg lang url
  have h1 : (0 : Int) ≤ if shortenerHit url then WEIGHTS.URL_SHORTENER else 0 := by
    split <;> norm_num [WEIGHTS.URL_SHORTENER]
  have h2 : (0 : Int) ≤ if insecureHit url then WEIGHTS.INSECURE_PROTOCOL else 0 := by
    split <;> norm_num [WEIGHTS.INSECURE_PROTOCOL]
  have h3 : (0 : Int) ≤ if tldHit url then WEIGHTS.SUSPICIOUS_TLD else 0 := by
    split <;> norm_num [WEIGHTS.SUSPICIOUS_TLD]
  linarith

theorem urlContrib_fst_nonneg (lang : Lang) (url : String) : 0 ≤ (urlContrib lang url).1 := by
  unfold urlContrib
  split
  · exact le_refl 0
  · exact urlChecks_fst_nonneg lang url

theorem govPart_fst_nonneg (lang : Lang) (text : String) : 0 ≤ (govPart lang text).1 := by
  unfold govPart
  exact iteBlock_nonneg (by norm_num [WEIGHTS.FAKE_GOVERNMENT])

theorem urgencyPart_fst_nonneg (lang : Lang) (text : String) : 0 ≤ (urgencyPart lang text).1 := by
  unfold urgencyPart
  exact iteBlock_nonneg (le_min (by positivity) (by norm_num [WEIGHTS.URGENCY_TACTICS]))

theorem phishingPart_fst_nonneg (lang : Lang) (text : String) : 0 ≤ (phishingPart lang text).1 := by
  unfold phishingPart
  exact iteBlock_nonneg (le_min (by positivity) (by norm_num [WEIGHTS.PHISHING_KEYWORDS]))

theorem multiPart_fst_nonneg (lang : Lang) (text : String) : 0 ≤ (multiPart lang text).1 := by
  unfold multiPart
  exact iteBlock_nonneg (by norm_num [WEIGHTS.MULTIPLE_REDIRECTS])

theorem unofficialPart_fst_nonneg (lang : Lang) (text : String) :
    0 ≤ (unofficialPart lang text).1 := by
  unfold unofficialPart
  exact iteBlock_nonneg (by norm_num [WEIGHTS.UNOFFICIAL_SOURCE])

theorem personalPart_fst_nonneg (lang : Lang) (text : String) : 0 ≤ (personalPart lang text).1 := by
  unfold personalPart
  exact iteBlock_nonneg (by norm_num)

theorem mixedPart_fst_nonneg (lang : Lang) (text : String) : 0 ≤ (mixedPart lang text).1 := by
  unfold mixedPart
  exact iteBlock_nonneg (by norm_num)

theorem misspell_foldl_fst_mono (lang : Lang) (text : String) :
    ∀ (l : List (String × String)) (init : Int × List String),
      init.1 ≤ (l.foldl
        (fun acc term =>
          if containsStr text term.1 then (acc.1 + 15, acc.2 ++ [warnMisspell lang term.1 term.2])
          else acc) init).1 := by
  intro l
  induction l with
  | nil => intro init; exact le_refl _
  | cons t ts ih =>
    intro init
    simp only [List.foldl_cons]
    refine le_trans ?_ (ih _)
    by_cases hc : containsStr text t.1 = true
    · rw [if_pos hc]
      show init.1 ≤ init.1 + 15
      omega
    · rw [if_neg hc]

theorem misspellPart_fst_nonneg (lang : Lang) (text : String) : 0 ≤ (misspellPart lang text).1 := by
  unfold misspellPart
  exact misspell_foldl_fst_mono lang text misspelledTerms ((0 : Int), ([] : List String))

theorem urlsPart_all_official (lang : Lang) (urls : List String)
    (h : ∀ u ∈ urls, isOfficialURL u = true) :
    ∀ acc : Int × List String,
      urls.foldl (fun acc u => (acc.1 + (urlContrib lang u).1, acc.2 ++ (urlContrib lang u).2)) acc
        = acc := by
  induction urls with
  | nil => intro acc; rfl
  | cons u us ih =>
    intro acc
    have hu : isOfficialURL u = true := h u (List.mem_cons_self u us)
    have hc : urlContrib lang u = (0, []) := by simp [urlContrib, hu]
    simp only [List.foldl_cons, hc]
    have := ih (fun v hv => h v (List.mem_cons_of_mem u hv)) acc
    simpa using this

theorem urlsPart_official_eq (lang : Lang) (urls : List String)
    (h : ∀ u ∈ urls, isOfficialURL u = true) : urlsPart lang urls = (0, []) := by
  unfold urlsPart
  exact urlsPart_all_official lang urls h ((0 : Int), ([] : List String))

theorem urlsPart_singleton (lang : Lang) (u : String) :
    urlsPart lang [u] = urlContrib lang u := by
  simp [urlsPart]

theorem misspellPart_eq_zero (lang : Lang) (text : String)
    (h : ∀ term ∈ misspelledTerms, containsStr text term.1 = false) :
    misspellPart lang text = (0, []) := by
  unfold misspellPart
  have aux : ∀ (l : List (String × String)), (∀ term ∈ l, containsStr text term.1 = false) →
      ∀ acc : Int × List String,
        l.foldl (fun acc term =>
          if containsStr text term.1 then (acc.1 + 15, acc.2 ++ [warnMisspell lang term.1 term.2])
          else acc) acc = acc := by
    intro l
    induction l with
    | nil => intro _ acc; rfl
    | cons t ts ih =>
      intro hl acc
      have ht : containsStr text t.1 = false := hl t (List.mem_cons_self t ts)
      simp only [List.foldl_cons, ht]
      simp only [Bool.false_eq_true, if_false]
      exact ih (fun v hv => hl v (List.mem_cons_of_mem t hv)) acc
  exact aux misspelledTerms h ((0 : Int), ([] : List String))

theorem warningsRaw_take_eq_nil (lang : Lang) (m : String)
    (hw : (performEnhancedAnalysis lang m).warnings = []) : warningsRaw lang m = [] := by
  have h10 : (warningsRaw lang m).take 10 = [] := hw
  have hlen := congrArg List.length h10
  simp only [List.length_take, List.length_nil] at hlen
  have : (warningsRaw lang m).length = 0 := by omega
  exact List.length_eq_zero.mp this

theorem urls_nil_of_warnings_nil (lang : Lang) (m : String)
    (hw : (performEnhancedAnalysis lang m).warnings = []) : extractURLs m = [] := by
  have hraw := warningsRaw_take_eq_nil lang m hw
  by_contra hne
  have hub : hasUrlsB m = true := by
    unfold hasUrlsB
    cases hE : extractURLs m with
    | nil => exact absurd hE hne
    | cons a l => rfl
  cases hOf : hasOfficialB m with
  | true =>
    have hOfp : officialPart lang m = (-30, [warnOfficial lang]) := by simp [officialPart, hOf]
    unfold warningsRaw at hraw
    rw [hOfp] at hraw
    simp [List.append_eq_nil] at hraw
  | false =>
    have hUnp : unofficialPart lang m = (WEIGHTS.UNOFFICIAL_SOURCE, [warnUnofficial lang]) := by
      simp [unofficialPart, hOf, hub]
    unfold warningsRaw at hraw
    rw [hUnp] at hraw
    simp [List.append_eq_nil] at hraw

/-! ## Language invariance helpers -/

theorem analyzeURLAdvanced_fst_lang (l1 l2 : Lang) (url : String) :
    (analyzeURLAdvanced l1 url).1 = (analyzeURLAdvanced l2 url).1 := by
  simp [analyzeURLAdvanced, fstIte]

theorem urlChecks_fst_lang (l1 l2 : Lang) (url : String) :
    (urlChecks l1 url).1 = (urlChecks l2 url).1 := by
  rw [urlChecks_fst_eq, urlChecks_fst_eq, analyzeURLAdvanced_fst_lang l1 l2 url]

theorem urlContrib_fst_lang (l1 l2 : Lang) (url : String) :
    (urlContrib l1 url).1 = (urlContrib l2 url).1 := by
  cases h : isOfficialURL url <;> simp [urlContrib, h, urlChecks_fst_lang l1 l2 url]

theorem urlsPart_fst_aux (l1 l2 : Lang) :
    ∀ (urls : List String) (p q : Int × List String), p.1 = q.1 →
      (urls.foldl (fun acc u => (acc.1 + (urlContrib l1 u).1, acc.2 ++ (urlContrib l1 u).2)) p).1 =
      (urls.foldl (fun acc u => (acc.1 + (urlContrib l2 u).1, acc.2 ++ (urlContrib l2 u).2)) q).1 := by
  intro urls
  induction urls with
  | nil => intro p q h; exact h
  | cons u us ih =>
    intro p q h
    simp only [List.foldl_cons]
    exact ih _ _ (by simp [h, urlContrib_fst_lang l1 l2 u])

theorem urlsPart_fst_lang (l1 l2 : Lang) (urls : List String) :
    (urlsPart l1 urls).1 = (urlsPart l2 urls).1 := by
  unfold urlsPart
  exact urlsPart_fst_aux l1 l2 urls _ _ rfl

theorem misspell_fst_aux (l1 l2 : Lang) (text : String) :
    ∀ (l : List (String × String)) (p q : Int × List String), p.1 = q.1 →
      (l.foldl (fun acc term =>
        if containsStr text term.1 then (acc.1 + 15, acc.2 ++ [warnMisspell l1 term.1 term.2])
        else acc) p).1 =
      (l.foldl (fun acc term =>
        if containsStr text term.1 then (acc.1 + 15, acc.2 ++ [warnMisspell l2 term.1 term.2])
        else acc) q).1 := by
  intro l
  induction l with
  | nil => intro p q h; exact h
  | cons t ts ih =>
    intro p q h
    simp only [List.foldl_cons]
    by_cases hc : containsStr text t.1 = true
    · rw [if_pos hc, if_pos hc]
      exact ih _ _ (by simp [h])
    · rw [if_neg hc, if_neg hc]
      exact ih _ _ h

theorem misspellPart_fst_lang (l1 l2 : Lang) (text : String) :
    (misspellPart l1 text).1 = (misspellPart l2 text).1 := by
  unfold misspellPart
  exact misspell_fst_aux l1 l2 text misspelledTerms _ _ rfl

theorem totalRaw_lang (l1 l2 : Lang) (text : String) : totalRaw l1 text = totalRaw l2 text := by
  unfold totalRaw urlLoopPart
  rw [urlsPart_fst_lang l1 l2 (extractURLs text), misspellPart_fst_lang l1 l2 text]
  have h1 : (officialPart l1 text).1 = (officialPart l2 text).1 := by simp [officialPart, fstIte]
  have h2 : (govPart l1 text).1 = (govPart l2 text).1 := by simp [govPart, fstIte]
  have h3 : (urgencyPart l1 text).1 = (urgencyPart l2 text).1 := by simp [urgencyPart, fstIte]
  have h4 : (phishingPart l1 text).1 = (phishingPart l2 text).1 := by simp [phishingPart, fstIte]
  have h5 : (multiPart l1 text).1 = (multiPart l2 text).1 := by simp [multiPart, fstIte]
  have h6 : (unofficialPart l1 text).1 = (unofficialPart l2 text).1 := by
    simp [unofficialPart, fstIte]
  have h7 : (personalPart l1 text).1 = (personalPart l2 text).1 := by simp [personalPart, fstIte]
  have h8 : (mixedPart l1 text).1 = (mixedPart l2 text).1 := by simp [mixedPart, fstIte]
  rw [h1, h2, h3, h4, h5, h6, h7, h8]

/-! ## Claim theorems -/

/-- Claim C1: for every message, every language setting and every optional
external ML score, the `riskScore` of the result of `performEnhancedAnalysis`
and of `combineMLWithEnhancedAnalysis` lies in the inclusive range [0, 100]. -/
theorem riskScore_clamped (lang : Lang) (text : String) (mlData : Option MLData) :
    (0 ≤ (performEnhancedAnalysis lang text).riskScore ∧
      (performEnhancedAnalysis lang text).riskScore ≤ 100) ∧
    (0 ≤ (combineMLWithEnhancedAnalysis lang text mlData).riskScore ∧
      (combineMLWithEnhancedAnalysis lang text mlData).riskScore ≤ 100) := by
  refine ⟨⟨(clamp_bounds (totalRaw lang text)).1, (clamp_bounds (totalRaw lang text)).2⟩, ?_⟩
  match mlData with
  | none =>
    exact ⟨(clamp_bounds (totalRaw lang text)).1, (clamp_bounds (totalRaw lang text)).2⟩
  | some ⟨none⟩ =>
    exact ⟨(clamp_bounds (totalRaw lang text)).1, (clamp_bounds (totalRaw lang text)).2⟩
  | some ⟨some []⟩ =>
    exact ⟨(clamp_bounds (totalRaw lang text)).1, (clamp_bounds (totalRaw lang text)).2⟩
  | some ⟨some (p :: ps)⟩ =>
    exact ⟨(clamp_bounds ((performEnhancedAnalysis lang text).riskScore +
        (mlPart lang (p :: ps)).1)).1,
      (clamp_bounds ((performEnhancedAnalysis lang text).riskScore +
        (mlPart lang (p :: ps)).1)).2⟩

/-- Claim C2: blending with an absent external score is the identity —
`combineMLWithEnhancedAnalysis` with `none`, with a missing `url_predictions`
field, or with an empty prediction list returns exactly the result of
`performEnhancedAnalysis` (same riskScore, classification, warnings,
urlsFound, and every other field). -/
theorem blending_absent_identity (lang : Lang) (text : String) :
    combineMLWithEnhancedAnalysis lang text none = performEnhancedAnalysis lang text ∧
    combineMLWithEnhancedAnalysis lang text (some ⟨none⟩) = performEnhancedAnalysis lang text ∧
    combineMLWithEnhancedAnalysis lang text (some ⟨some []⟩) = performEnhancedAnalysis lang text :=
  ⟨rfl, rfl, rfl⟩

/-- Claim C9: a CandidateURL is treated as official iff its lowercased text
contains an `OFFICIAL_DOMAINS` entry as a substring ANYWHERE (so
`evil.com/absher.sa` and `absher.sa.evil.com` both count as trusted); such a
URL contributes no structural score or flags at all, and whenever any
extracted URL is official the -30 bonus fires while the
government-impersonation and unofficial-source penalties are suppressed. -/
theorem official_domain_substring_policy :
    isOfficialURL "evil.com/absher.sa" = true ∧
    isOfficialURL "absher.sa.evil.com" = true ∧
    (∀ url : String, isOfficialURL url = true ↔
      ∃ d ∈ OFFICIAL_DOMAINS, containsStr (lowerStr url) d = true) ∧
    (∀ (lang : Lang) (url : String), isOfficialURL url = true → urlContrib lang url = (0, [])) ∧
    (∀ (lang : Lang) (text : String), hasOfficialB text = true →
      officialPart lang text = (-30, [warnOfficial lang]) ∧
      (govPart lang text).1 = 0 ∧ (unofficialPart lang text).1 = 0) := by
  refine ⟨by decide, by decide, ?_, ?_, ?_⟩
  · intro url
    simp [isOfficialURL, List.any_eq_true]
  · intro lang url h
    simp [urlContrib, h]
  · intro lang text h
    refine ⟨by simp [officialPart, h], by simp [govPart, h], by simp [unofficialPart, h]⟩

/-- Witness for C9: the policy applied at the concrete adversarial URL
`evil.com/absher.sa` and at the message consisting of that URL. -/
theorem official_domain_substring_policy_witness :
    urlContrib Lang.ar "evil.com/absher.sa" = (0, []) ∧
    officialPart Lang.ar "evil.com/absher.sa" = (-30, [warnOfficial Lang.ar]) :=
  ⟨official_domain_substring_policy.2.2.2.1 Lang.ar "evil.com/absher.sa"
      official_domain_substring_policy.1,
   (official_domain_substring_policy.2.2.2.2 Lang.ar "evil.com/absher.sa" (by decide)).1⟩

/-- Claim C10: analyzing the same message under the `ar` and `en` UI language
settings yields the same riskScore, the same classification tier identifier
and the same urlsFound count (only the localized strings differ). -/
theorem language_invariance (l1 l2 : Lang) (text : String) :
    (performEnhancedAnalysis l1 text).riskScore = (performEnhancedAnalysis l2 text).riskScore ∧
    (performEnhancedAnalysis l1 text).classification =
      (performEnhancedAnalysis l2 text).classification ∧
    (performEnhancedAnalysis l1 text).urlsFound = (performEnhancedAnalysis l2 text).urlsFound := by
  have h := totalRaw_lang l1 l2 text
  refine ⟨?_, ?_, rfl⟩
  · show clamp (totalRaw l1 text) = clamp (totalRaw l2 text)
    rw [h]
  · show classify (clamp (totalRaw l1 text)) = classify (clamp (totalRaw l2 text))
    rw [h]

/-- Claim C4: for a message all of whose extracted CandidateURLs match the
official allow-list and which triggers no lexical red-flag category, the
official bonus is exactly -30 (applied once, however many trusted URLs there
are), the final score is 0 — at or below the SAFE threshold — and the
classification is SAFE. -/
theorem trusted_domain_dominance (lang : Lang) (text : String)
    (hne : extractURLs text ≠ [])
    (hall : ∀ u ∈ extractURLs text, isOfficialURL u = true)
    (hurg : urgencyMatches text = 0)
    (hph : phishingIndicators text < 3)
    (hpi : personalInfoHit text = false)
    (hmx : mixedLangHit text = false)
    (hms : ∀ term ∈ misspelledTerms, containsStr text term.1 = false) :
    officialPart lang text = (-30, [warnOfficial lang]) ∧
    (performEnhancedAnalysis lang text).riskScore = 0 ∧
    (performEnhancedAnalysis lang text).riskScore ≤ SAFE_THRESHOLD ∧
    (performEnhancedAnalysis lang text).classification = "SAFE" := by
  have hOf : hasOfficialB text = true := by
    unfold hasOfficialB
    rw [List.any_eq_true]
    obtain ⟨u, hu⟩ := List.exists_mem_of_ne_nil _ hne
    exact ⟨u, hu, hall u hu⟩
  have hOfp : officialPart lang text = (-30, [warnOfficial lang]) := by simp [officialPart, hOf]
  have hUL : urlLoopPart lang text = (0, []) := by
    unfold urlLoopPart
    exact urlsPart_official_eq lang _ hall
  have hGov : govPart lang text = (0, []) := by simp [govPart, hOf]
  have hUrg : urgencyPart lang text = (0, []) := by simp [urgencyPart, hurg]
  have hPh : phishingPart lang text = (0, []) := by
    unfold phishingPart
    rw [if_neg (by omega)]
  have hUn : unofficialPart lang text = (0, []) := by simp [unofficialPart, hOf]
  have hPer : personalPart lang text = (0, []) := by simp [personalPart, hpi]
  have hMix : mixedPart lang text = (0, []) := by simp [mixedPart, hmx]
  have hMis := misspellPart_eq_zero lang text hms
  have hM0 : (multiPart lang text).1 =
      (if 2 < (extractURLs text).length then WEIGHTS.MULTIPLE_REDIRECTS else 0) := by
    simp [multiPart, fstIte]
  have ht : totalRaw lang text =
      (if 2 < (extractURLs text).length then WEIGHTS.MULTIPLE_REDIRECTS else 0) + -30 := by
    unfold totalRaw
    rw [hUL, hOfp, hGov, hUrg, hPh, hUn, hPer, hMix, hMis, hM0]
    simp
    ring
  have hscore : (performEnhancedAnalysis lang text).riskScore = 0 := by
    show clamp (totalRaw lang text) = 0
    rw [ht]
    by_cases hm : 2 < (extractURLs text).length
    · rw [if_pos hm]; decide
    · rw [if_neg hm]; decide
  refine ⟨hOfp, hscore, ?_, ?_⟩
  · rw [hscore]; decide
  · show classify (clamp (totalRaw lang text)) = "SAFE"
    have h0 : clamp (totalRaw lang text) = 0 := hscore
    rw [h0]
    decide

/-- Witness for C4: the message "absher.sa", whose only CandidateURL is the
official domain itself and which triggers no lexical category. -/
theorem trusted_domain_dominance_witness :
    officialPart Lang.ar "absher.sa" = (-30, [warnOfficial Lang.ar]) ∧
    (performEnhancedAnalysis Lang.ar "absher.sa").riskScore = 0 ∧
    (performEnhancedAnalysis Lang.ar "absher.sa").classification = "SAFE" := by
  have h := trusted_domain_dominance Lang.ar "absher.sa" (by decide) (by decide) (by decide)
    (by decide) (by decide) (by decide) (by decide)
  exact ⟨h.1, h.2.1, h.2.2.2⟩

/-- Claim C5: a message with zero CandidateURLs and no triggered lexical
category yields riskScore 0, an empty warning list, urlsFound 0 and the SAFE
tier. -/
theorem no_signal_zero_result (lang : Lang) (text : String)
    (hurls : extractURLs text = [])
    (hurg : urgencyMatches text = 0)
    (hph : phishingIndicators text < 3)
    (hpi : personalInfoHit text = false)
    (hmx : mixedLangHit text = false)
    (hms : ∀ term ∈ misspelledTerms, containsStr text term.1 = false) :
    (performEnhancedAnalysis lang text).riskScore = 0 ∧
    (performEnhancedAnalysis lang text).warnings = [] ∧
    (performEnhancedAnalysis lang text).urlsFound = 0 ∧
    (performEnhancedAnalysis lang text).classification = "SAFE" := by
  have hub : hasUrlsB text = false := by simp [hasUrlsB, hurls]
  have hOf : hasOfficialB text = false := by simp [hasOfficialB, hurls]
  have hUL : urlLoopPart lang text = (0, []) := by
    unfold urlLoopPart
    rw [hurls]
    rfl
  have hOfp : officialPart lang text = (0, []) := by simp [officialPart, hOf]
  have hGov : govPart lang text = (0, []) := by simp [govPart, hub]
  have hUrg : urgencyPart lang text = (0, []) := by simp [urgencyPart, hurg]
  have hPh : phishingPart lang text = (0, []) := by
    unfold phishingPart
    rw [if_neg (by omega)]
  have hMul : multiPart lang text = (0, []) := by simp [multiPart, hurls]
  have hUn : unofficialPart lang text = (0, []) := by simp [unofficialPart, hub]
  have hPer : personalPart lang text = (0, []) := by simp [personalPart, hpi]
  have hMix : mixedPart lang text = (0, []) := by simp [mixedPart, hmx]
  have hMis := misspellPart_eq_zero lang text hms
  have htot : totalRaw lang text = 0 := by
    unfold totalRaw
    rw [hUL, hOfp, hGov, hUrg, hPh, hMul, hUn, hPer, hMix, hMis]
    simp
  refine ⟨?_, ?_, ?_, ?_⟩
  · show clamp (totalRaw lang text) = 0
    rw [htot]; decide
  · show (warningsRaw lang text).take 10 = []
    unfold warningsRaw
    rw [hUL, hOfp, hGov, hUrg, hPh, hMul, hUn, hPer, hMix, hMis]
    rfl
  · show (extractURLs text).length = 0
    rw [hurls]; rfl
  · show classify (clamp (totalRaw lang text)) = "SAFE"
    rw [htot]; decide

/-- Witness for C5: the empty message. -/
theorem no_signal_zero_result_witness :
    (performEnhancedAnalysis Lang.ar "").riskScore = 0 ∧
    (performEnhancedAnalysis Lang.ar "").warnings = [] ∧
    (performEnhancedAnalysis Lang.ar "").urlsFound = 0 ∧
    (performEnhancedAnalysis Lang.ar "").classification = "SAFE" :=
  no_signal_zero_result Lang.ar "" (by decide) (by decide) (by decide) (by decide) (by decide)
    (by decide)

/-- Claim C3 counterexample: `extractURLs` (src/script.js) returns duplicate
entries for a message repeating a protocol-prefixed URL, and places all
protocol-prefixed matches before bare-domain matches regardless of the order
of first occurrence in the message. -/
theorem extractURLs_order_dedup_cex :
    extractURLs "http://a.com http://a.com" = ["http://a.com", "http://a.com"] ∧
    ¬ (extractURLs "http://a.com http://a.com").Nodup ∧
    extractURLs "a.com http://b.com" = ["http://b.com", "a.com"] := by
  refine ⟨by decide, by decide, by decide⟩

theorem extract_fold_aux :
    ∀ (bs : List String) (init : List String),
      ∃ extra : List String,
        bs.foldl (fun urls u =>
          if !urls.contains u && !endsStr u "." && containsStr u "." then urls ++ [u] else urls)
          init = init ++ extra ∧
        extra.Nodup ∧ ∀ u ∈ extra, u ∉ init := by
  intro bs
  induction bs with
  | nil =>
    intro init
    exact ⟨[], by simp, List.nodup_nil, by simp⟩
  | cons b bs ih =>
    intro init
    simp only [List.foldl_cons]
    by_cases hc : (!init.contains b && !endsStr b "." && containsStr b ".") = true
    · rw [if_pos hc]
      have h2 : init.contains b = false := by
        cases hcb : init.contains b
        · rfl
        · rw [hcb] at hc; simp at hc
      have hb : b ∉ init := by
        intro hmem
        have h1 : init.contains b = true := List.elem_iff.mpr hmem
        rw [h2] at h1
        exact Bool.false_ne_true h1
      obtain ⟨extra, he, hnd, hni⟩ := ih (init ++ [b])
      refine ⟨b :: extra, ?_, ?_, ?_⟩
      · rw [he]; simp
      · refine List.nodup_cons.mpr ⟨?_, hnd⟩
        intro hbe
        exact (hni b hbe) (by simp)
      · intro u hu
        rcases List.mem_cons.mp hu with rfl | hu'
        · exact hb
        · intro hui
          exact (hni u hu') (List.mem_append_left _ hui)
    · rw [if_neg hc]
      exact ih init

theorem removeDup_nodup_aux :
    ∀ (l : List String) (acc : List String), acc.Nodup →
      (l.foldl (fun acc u => if acc.contains u then acc else acc ++ [u]) acc).Nodup := by
  intro l
  induction l with
  | nil => intro acc h; exact h
  | cons u us ih =>
    intro acc h
    simp only [List.foldl_cons]
    by_cases hc : acc.contains u = true
    · rw [if_pos hc]; exact ih acc h
    · rw [if_neg hc]
      refine ih _ ?_
      have hu : u ∉ acc := fun hmem => hc (List.elem_iff.mpr hmem)
      rw [List.nodup_append]
      refine ⟨h, List.nodup_singleton u, ?_⟩
      intro a ha hb
      rw [List.mem_singleton] at hb
      subst hb
      exact hu ha

/-- Claim C3 amended: `extractURLs` returns all protocol-prefixed regex matches
first, in occurrence order and possibly with duplicates, followed by the bare
candidates that survived the filter; every appended bare candidate is distinct
from all protocol-prefixed matches and from each other.  The src/js/utils.js
variant additionally removes remaining duplicates (keeping first occurrences),
so its output is always duplicate-free.  First-occurrence order across the two
passes is not guaranteed by either variant. -/
theorem extractURLs_structure :
    (∀ text : String, ∃ extra : List String,
      extractURLs text = fullURLsOf text ++ extra ∧ extra.Nodup ∧
      ∀ u ∈ extra, u ∉ fullURLsOf text) ∧
    (∀ text : String, (extractURLsUtils text).Nodup) := by
  constructor
  · intro text
    exact extract_fold_aux (bareURLsOf text) (fullURLsOf text)
  · intro text
    exact removeDup_nodup_aux (extractURLs text) [] List.nodup_nil

/-- Witness for C3 amended, instantiated at the duplicate-producing message. -/
theorem extractURLs_structure_witness :
    (extractURLsUtils "http://a.com http://a.com").Nodup :=
  extractURLs_structure.2 "http://a.com http://a.com"

/-- Claim C6 counterexample: the CandidateURL `http://evil.tk/a` has host
`evil.tk`, ending in the suspicious TLD `.tk`, yet because the code tests
`url.toLowerCase().endsWith(tld)` on the WHOLE URL string, the presence of the
path `/a` defeats the check: no suspicious-TLD penalty is added and no
suspicious-TLD flag is recorded (only the insecure-protocol penalty fires). -/
theorem suspicious_tld_path_cex :
    extractURLs "http://evil.tk/a" = ["http://evil.tk/a"] ∧
    hostOf "http://evil.tk/a" = some "evil.tk" ∧
    endsStr "evil.tk" ".tk" = true ∧
    SUSPICIOUS_TLDS.contains ".tk" = true ∧
    tldHit "http://evil.tk/a" = false ∧
    (urlChecks Lang.ar "http://evil.tk/a").1 = WEIGHTS.INSECURE_PROTOCOL ∧
    (urlChecks Lang.ar "http://evil.tk/a").2 = [warnInsecure Lang.ar] := by
  refine ⟨by decide, by decide, by decide, by decide, by decide, by decide, by decide⟩

/-- Claim C6 amended: the suspicious-TLD penalty of 30 is added, and the
corresponding flag recorded, exactly when the FULL lowercased URL string ends
with a suspicious TLD; a URL whose host ends with such a TLD but which
continues with a path or query does not trigger the check unless the path
itself ends with one of the TLDs. -/
theorem suspicious_tld_full_string (lang : Lang) (url : String)
    (h : tldHit url = true) :
    (urlChecks lang url).1 =
      (analyzeURLAdvanced lang url).1 +
      (if shortenerHit url then WEIGHTS.URL_SHORTENER else 0) +
      (if insecureHit url then WEIGHTS.INSECURE_PROTOCOL else 0) +
      WEIGHTS.SUSPICIOUS_TLD ∧
    warnTLD lang ∈ (urlChecks lang url).2 := by
  constructor
  · rw [urlChecks_fst_eq, if_pos h]
  · simp [urlChecks, h]

/-- Witness for C6 amended: the path-free URL `http://evil.tk` does trigger the
check. -/
theorem suspicious_tld_full_string_witness :
    warnTLD Lang.ar ∈ (urlChecks Lang.ar "http://evil.tk").2 :=
  (suspicious_tld_full_string Lang.ar "http://evil.tk" (by decide)).2

/-- Claim C7 counterexample: "hello" is a clean message (score 0, no flags);
appending the shortener-domain URL `bit.ly/absher.sa` — a URL on the known
shortener `bit.ly` — does NOT strictly increase the score: the URL contains
the official-domain substring `absher.sa`, so the shortener check is skipped,
the -30 trusted bonus fires and the clamped score stays 0. -/
theorem shortener_official_url_cex :
    (performEnhancedAnalysis Lang.ar "hello").riskScore = 0 ∧
    (performEnhancedAnalysis Lang.ar "hello").warnings = [] ∧
    shortenerHit "bit.ly/absher.sa" = true ∧
    extractURLs ("hello" ++ " " ++ "bit.ly/absher.sa") = ["bit.ly/absher.sa"] ∧
    (performEnhancedAnalysis Lang.ar ("hello" ++ " " ++ "bit.ly/absher.sa")).riskScore = 0 := by
  refine ⟨by decide, by decide, by decide, by decide, by decide⟩

/-- Claim C7 amended: appending to a clean message (score 0, no flags) a
shortener-domain URL that is extracted as a new CandidateURL and is NOT
recognized as official strictly increases the risk score (and, being clamped
at 0, the score never decreases). -/
theorem shortener_append_increases (lang : Lang) (m u : String)
    (h0 : (performEnhancedAnalysis lang m).riskScore = 0)
    (hw : (performEnhancedAnalysis lang m).warnings = [])
    (hx : extractURLs (m ++ " " ++ u) = extractURLs m ++ [u])
    (hsh : shortenerHit u = true)
    (hof : isOfficialURL u = false) :
    (performEnhancedAnalysis lang m).riskScore <
      (performEnhancedAnalysis lang (m ++ " " ++ u)).riskScore := by
  have hm : extractURLs m = [] := urls_nil_of_warnings_nil lang m hw
  have hx1 : extractURLs (m ++ " " ++ u) = [u] := by rw [hx, hm]; rfl
  have hofb : hasOfficialB (m ++ " " ++ u) = false := by
    unfold hasOfficialB
    rw [hx1]
    simp [hof]
  have hUL : (urlLoopPart lang (m ++ " " ++ u)).1 = (urlChecks lang u).1 := by
    unfold urlLoopPart
    rw [hx1, urlsPart_singleton]
    unfold urlContrib
    rw [if_neg (by simp [hof])]
  have hchecks : (30 : Int) ≤ (urlChecks lang u).1 := by
    rw [urlChecks_fst_eq, if_pos hsh]
    have h1 := analyzeURLAdvanced_fst_nonneg lang u
    have h2 : (0 : Int) ≤ if insecureHit u then WEIGHTS.INSECURE_PROTOCOL else 0 := by
      split <;> decide
    have h3 : (0 : Int) ≤ if tldHit u then WEIGHTS.SUSPICIOUS_TLD else 0 := by
      split <;> decide
    have hW : WEIGHTS.URL_SHORTENER = 30 := rfl
    rw [hW]
    linarith
  have hOfp : (officialPart lang (m ++ " " ++ u)).1 = 0 := by simp [officialPart, hofb]
  have htot : (30 : Int) ≤ totalRaw lang (m ++ " " ++ u) := by
    unfold totalRaw
    rw [hUL, hOfp]
    have g1 := govPart_fst_nonneg lang (m ++ " " ++ u)
    have g2 := urgencyPart_fst_nonneg lang (m ++ " " ++ u)
    have g3 := phishingPart_fst_nonneg lang (m ++ " " ++ u)
    have g4 := multiPart_fst_nonneg lang (m ++ " " ++ u)
    have g5 := unofficialPart_fst_nonneg lang (m ++ " " ++ u)
    have g6 := personalPart_fst_nonneg lang (m ++ " " ++ u)
    have g7 := mixedPart_fst_nonneg lang (m ++ " " ++ u)
    have g8 := misspellPart_fst_nonneg lang (m ++ " " ++ u)
    linarith
  have hge : (30 : Int) ≤ (performEnhancedAnalysis lang (m ++ " " ++ u)).riskScore := by
    show (30 : Int) ≤ clamp (totalRaw lang (m ++ " " ++ u))
    exact le_trans (le_min (by norm_num) htot) (le_max_right _ _)
  rw [h0]
  linarith

/-- Witness for C7 amended: appending `bit.ly/x` to the clean message
"hello". -/
theorem shortener_append_increases_witness :
    (performEnhancedAnalysis Lang.ar "hello").riskScore <
      (performEnhancedAnalysis Lang.ar ("hello" ++ " " ++ "bit.ly/x")).riskScore :=
  shortener_append_increases Lang.ar "hello" "bit.ly/x" (by decide) (by decide) (by decide)
    (by decide) (by decide)

/-- Claim C8 counterexample: after external-score blending the warning list is
NOT truncated to 10 — an empty message blended with eleven high-confidence
predictions yields eleven warnings. -/
theorem warnings_truncation_cex :
    10 < ((combineMLWithEnhancedAnalysis Lang.ar ""
      (some ⟨some (List.replicate 11 ⟨"u", mkRat 4 5⟩)⟩)).warnings).length := by
  decide

/-- Claim C8 amended: the rule-based result's warning list is truncated to at
most 10 entries (insertion order preserved by `slice(0, 10)`), but
`combineMLWithEnhancedAnalysis` appends the ML warnings to that truncated list
WITHOUT re-truncating, so a blended result carries the at-most-10 rule-based
warnings plus every medium/high-confidence ML warning. -/
theorem warnings_truncation (lang : Lang) (text : String) (mlData : Option MLData) :
    (performEnhancedAnalysis lang text).warnings.length ≤ 10 ∧
    (∀ (d : MLData) (preds : List MLPrediction), mlData = some d →
      d.url_predictions = some preds → preds ≠ [] →
      (combineMLWithEnhancedAnalysis lang text mlData).warnings =
        (performEnhancedAnalysis lang text).warnings ++ (mlPart lang preds).2) := by
  constructor
  · show ((warningsRaw lang text).take 10).length ≤ 10
    rw [List.length_take]
    exact min_le_left _ _
  · intro d preds hd hp hne
    subst hd
    cases d with
    | mk up =>
      subst hp
      cases preds with
      | nil => exact absurd rfl hne
      | cons p ps => rfl

/-- Witness for C8 amended, at the empty message and one high-confidence
prediction. -/
theorem warnings_truncation_witness :
    (performEnhancedAnalysis Lang.ar "").warnings.length ≤ 10 ∧
    (combineMLWithEnhancedAnalysis Lang.ar ""
        (some ⟨some [⟨"u", mkRat 4 5⟩]⟩)).warnings =
      (performEnhancedAnalysis Lang.ar "").warnings ++
        (mlPart Lang.ar [⟨"u", mkRat 4 5⟩]).2 :=
  ⟨(warnings_truncation Lang.ar "" (some ⟨some [⟨"u", mkRat 4 5⟩]⟩)).1,
   (warnings_truncation Lang.ar "" (some ⟨some [⟨"u", mkRat 4 5⟩]⟩)).2
     ⟨some [⟨"u", mkRat 4 5⟩]⟩ [⟨"u", mkRat 4 5⟩] rfl rfl (by simp)⟩
